import Mathlib

/-!
Verification of the csm-backend CRM core: a shallow embedding of the
financial aggregation engine (`src/models/dashboard.model.ts`), the
polymorphic product-payment ledger (`src/models/clientProductPayments.model.ts`),
the staged-payment ledger (`src/models/clientPayment.model.ts`) and the
leaderboard ranker (leaderboard model file), together with theorems settling
the frozen behavioural claims about them.

Modelling conventions:
* SQL `numeric` values and JS numbers are modelled as `ℚ` (the code treats
  them as exact decimals: amounts flow through `parseFloat`/`toString`).
* Dates are modelled at day granularity as `(year, month, day)` triples with
  JS conventions (`month` is 0-based); `setHours(0,0,0,0)` /
  `setHours(23,59,59,999)` both collapse to the same day, since every
  date comparison in the verified code paths is at date granularity.
* Database tables are lists of rows; `Except String` models `throw`.
-/

/- ==============================
   JS dates, day granularity
   (dashboard.model.ts `getDateRange` and friends)
============================== -/

/-- A calendar date as JS builds it: 0-based month, 1-based day. -/
structure SimpleDate where
  year : Int
  month : Nat
  day : Nat
deriving DecidableEq, Repr

/-- Lexicographic date comparison; agrees with comparison of ISO
`YYYY-MM-DD` strings, which is what the SQL `>=`/`<=` on date columns does. -/
def dateLE (a b : SimpleDate) : Bool :=
  if a.year ≠ b.year then decide (a.year < b.year)
  else if a.month ≠ b.month then decide (a.month < b.month)
  else decide (a.day ≤ b.day)

/-- Strict version of `dateLE`. -/
def dateLT (a b : SimpleDate) : Bool :=
  dateLE a b && !(dateLE b a)

/-- Gregorian leap year, as JS `Date` implements it. -/
def isLeapYear (y : Int) : Bool :=
  y % 4 = 0 && (y % 100 ≠ 0 || y % 400 = 0)

/-- `new Date(y, m + 1, 0).getDate()`: number of days of 0-based month `m`. -/
def daysInMonth (y : Int) (m : Nat) : Nat :=
  match m with
  | 0 => 31
  | 1 => if isLeapYear y then 29 else 28
  | 2 => 31
  | 3 => 30
  | 4 => 31
  | 5 => 30
  | 6 => 31
  | 7 => 31
  | 8 => 30
  | 9 => 31
  | 10 => 30
  | _ => 31

/-- `start.setDate(now.getDate() - 7)`: subtract 7 days, borrowing from the
previous month when needed (JS normalises the out-of-range day-of-month).
Since every month has at least 28 days a single borrow suffices. -/
def subSevenDays (d : SimpleDate) : SimpleDate :=
  if 7 < d.day then { d with day := d.day - 7 }
  else
    let pm := if d.month = 0 then 11 else d.month - 1
    let py := if d.month = 0 then d.year - 1 else d.year
    { year := py, month := pm, day := d.day + daysInMonth py pm - 7 }

/-- An inclusive day range (`interface DateRange { start; end }`; the `end`
field is called `stop` because `end` is reserved in Lean). -/
structure DateRange where
  start : SimpleDate
  stop : SimpleDate
deriving DecidableEq, Repr

/-- `type DashboardFilter = "today" | "weekly" | "monthly" | "yearly"`. -/
inductive DashboardFilter
  | today
  | weekly
  | monthly
  | yearly
deriving DecidableEq, Repr

/-- `getDateRange` (dashboard.model.ts lines 193–274), at day granularity.
The "today" case deliberately spans the last 7 days (the source comment
reads "Today filter: Use 7 days for chart data (same as weekly)"). -/
def getDateRange (filter : DashboardFilter) (now : SimpleDate) : DateRange :=
  match filter with
  | .today => { start := subSevenDays now, stop := now }
  | .weekly => { start := subSevenDays now, stop := now }
  | .monthly =>
    let targetMonth := if now.month = 0 then 11 else now.month - 1
    let targetYear := if now.month = 0 then now.year - 1 else now.year
    let lastDayOfTargetMonth := daysInMonth targetYear targetMonth
    let targetDate := min now.day lastDayOfTargetMonth
    { start := { year := targetYear, month := targetMonth, day := targetDate },
      stop := now }
  | .yearly =>
    { start := { year := now.year - 1, month := now.month, day := 1 }, stop := now }

/-- `getTodayOnlyDateRange` (lines 276–287): the current calendar day. -/
def getTodayOnlyDateRange (now : SimpleDate) : DateRange :=
  { start := now, stop := now }

/-- `getAllTimeDateRange` (lines 289–300): 2000-01-01 to end of today. -/
def getAllTimeDateRange (now : SimpleDate) : DateRange :=
  { start := { year := 2000, month := 0, day := 1 }, stop := now }

/- ==============================
   Percentage change (dashboard.model.ts lines 821–842) — claim C2
============================== -/

inductive ChangeType
  | increase
  | decrease
  | noChange
deriving DecidableEq, Repr

structure PercentChange where
  change : ℚ
  changeType : ChangeType
deriving DecidableEq, Repr

/-- JS `Math.round`: round half toward positive infinity. -/
def jsRound (x : ℚ) : Int := ⌊x + 1 / 2⌋

/-- `Math.round(change * 100) / 100`: round to 2 decimal places. -/
def roundTo2 (x : ℚ) : ℚ := (jsRound (x * 100) : ℚ) / 100

/-- `calculatePercentageChange` (dashboard.model.ts lines 821–842). -/
def calculatePercentageChange (current previous : ℚ) : PercentChange :=
  if previous = 0 then
    if current = 0 then { change := 0, changeType := .noChange }
    else { change := 100, changeType := .increase }
  else
    let change := (current - previous) / previous * 100
    let rounded := roundTo2 change
    if rounded > 0 then { change := rounded, changeType := .increase }
    else if rounded < 0 then { change := |rounded|, changeType := .decrease }
    else { change := 0, changeType := .noChange }

/-- C2: previous = 0 & current = 0 gives 0/"no-change"; previous = 0 &
current > 0 gives 100/"increase"; otherwise the result is the rounded
relative change reported as a magnitude with the change type given by its
sign, and in particular `calculatePercentageChange 50 100 = ⟨50, decrease⟩`. -/
theorem C2_calculatePercentageChange_spec :
    (∀ current previous : ℚ,
      (previous = 0 → current = 0 →
        calculatePercentageChange current previous = ⟨0, .noChange⟩) ∧
      (previous = 0 → 0 < current →
        calculatePercentageChange current previous = ⟨100, .increase⟩) ∧
      (previous ≠ 0 →
        let r := roundTo2 ((current - previous) / previous * 100)
        (calculatePercentageChange current previous).change = |r| ∧
        ((calculatePercentageChange current previous).changeType = .increase ↔ 0 < r) ∧
        ((calculatePercentageChange current previous).changeType = .decrease ↔ r < 0) ∧
        ((calculatePercentageChange current previous).changeType = .noChange ↔ r = 0))) ∧
    calculatePercentageChange 50 100 = ⟨50, .decrease⟩ := by
  constructor
  · intro current previous
    refine ⟨?_, ?_, ?_⟩
    · intro hp hc
      simp [calculatePercentageChange, hp, hc]
    · intro hp hc
      simp [calculatePercentageChange, hp, ne_of_gt hc]
    · intro hp
      intro r
      unfold calculatePercentageChange
      simp only [hp, if_false]
      rcases lt_trichotomy r 0 with h | h | h
      · have h1 : ¬ ((r : ℚ) > 0) := by linarith
        simp only [r] at h h1 ⊢
        rw [if_neg h1, if_pos h]
        refine ⟨by simp, ?_, ?_, ?_⟩ <;>
          simp_all [abs_of_neg h, ne_of_lt h]
      · simp only [r] at h ⊢
        rw [h]
        simp
      · simp only [r] at h ⊢
        rw [if_pos h]
        refine ⟨by simp [abs_of_pos h], ?_, ?_, ?_⟩ <;>
          simp_all [ne_of_gt h, le_of_lt h]
  · have h50 : ((50 : ℚ) - 100) / 100 * 100 = -50 := by norm_num
    have hr : roundTo2 (-50 : ℚ) = -50 := by norm_num [roundTo2, jsRound]
    have habs : |(-50 : ℚ)| = 50 := by rw [abs_of_neg (by norm_num)]; norm_num
    simp only [calculatePercentageChange, h50, hr]
    norm_num [habs]

/-- Witness for C2: the hypotheses are satisfiable — instantiating the main
theorem at `current = 5, previous = 0` yields the spec's second example. -/
theorem C2_calculatePercentageChange_spec_witness :
    calculatePercentageChange 5 0 = ⟨100, .increase⟩ :=
  (C2_calculatePercentageChange_spec.1 5 0).2.1 rfl (by norm_num)

/- ==============================
   Client records and role scope
   (clientInformation table, dashboard.model.ts lines 157–188)
============================== -/

/-- A `clientInformation` row (the fields the aggregation engine reads). -/
structure ClientInfo where
  clientId : Nat
  counsellorId : Nat
  archived : Bool
  enrollmentDate : SimpleDate
deriving DecidableEq, Repr

/-- `interface RoleBasedFilter { userRole; userId; counsellorId? }`. -/
structure RoleBasedFilter where
  userRole : String
  userId : Option Nat := none
  counsellorId : Option Nat := none
deriving DecidableEq, Repr

/-- `buildCounsellorFilter` (dashboard.model.ts lines 180–188) as the
predicate the produced SQL condition tests on a client row: counsellors are
restricted to their own clients, admin/manager get no extra condition. -/
def buildCounsellorFilter (filter : RoleBasedFilter) (c : ClientInfo) : Bool :=
  if filter.userRole = "counsellor" then
    match filter.counsellorId with
    | some cid => if cid = 0 then true else c.counsellorId = cid
    | none => true
  else true

/- ==============================
   Staged-payment ledger rows (clientPayment schema)
============================== -/

/-- A `clientPayments` row. The SQL stores `totalPayment` and `amount` as
numeric strings; they are modelled by their rational values (the code
round-trips them through `parseFloat`/`String`). `stage` is the raw string
tag, exactly as compared against `'INITIAL'` etc. in the SQL. -/
structure ClientPayment where
  paymentId : Nat
  clientId : Nat
  totalPayment : ℚ
  stage : String
  amount : ℚ
  paymentDate : String
  invoiceNo : String
  remarks : Option String := none
deriving DecidableEq, Repr

/- ==============================
   Pending amount (dashboard.model.ts lines 480–613) — claim C1
============================== -/

/-- Result shape of `getPendingAmount`: the outstanding balance plus the
per-stage breakdown (`toFixed(2)` string formatting is modelled by the
rational values themselves). -/
structure PendingResult where
  pendingAmount : ℚ
  initial : ℚ
  beforeVisa : ℚ
  afterVisa : ℚ
  submittedVisa : ℚ
deriving DecidableEq, Repr

/-- One step of the `clientExpectedMap` construction (lines 534–540): if the
client is not yet in the map, record this row's `totalPayment` for it. -/
def expectedStep (m : List (Nat × ℚ)) (p : ClientPayment) : List (Nat × ℚ) :=
  if m.any (fun e => e.1 = p.clientId) then m
  else m ++ [(p.clientId, p.totalPayment)]

/-- The `clientExpectedMap` construction (lines 534–540): walk the payment
rows in order and record the first `totalPayment` seen for each client. -/
def clientExpectedMap (rows : List ClientPayment) : List (Nat × ℚ) :=
  rows.foldl expectedStep []

/-- The client-scope query of `getPendingAmount` (lines 487–503): the ids of
non-archived clients whose `enrollmentDate` lies in the range, further
restricted by the role filter. -/
def pendingScopeClientIds (dateRange : DateRange) (filter : Option RoleBasedFilter)
    (clients : List ClientInfo) : List Nat :=
  (clients.filter (fun c =>
    c.archived = false &&
    dateLE dateRange.start c.enrollmentDate &&
    dateLE c.enrollmentDate dateRange.stop &&
    (match filter with
     | some f => buildCounsellorFilter f c
     | none => true))).map (·.clientId)

/-- The `clientPayments` rows belonging to the in-scope clients
(`WHERE clientId IN (...)`, lines 523–530 and 553–561). -/
def pendingScopeRows (dateRange : DateRange) (filter : Option RoleBasedFilter)
    (clients : List ClientInfo) (payments : List ClientPayment) : List ClientPayment :=
  payments.filter (fun p =>
    (pendingScopeClientIds dateRange filter clients).contains p.clientId)

/-- Per-stage amount total: the `GROUP BY stage` + `SUM(amount)` of
lines 553–561 read off for one stage tag. -/
def sumStageAmount (rows : List ClientPayment) (s : String) : ℚ :=
  ((rows.filter (fun p => p.stage = s)).map (·.amount)).sum

/-- `getPendingAmount` (dashboard.model.ts lines 480–613). `dateRange` is
the enrollment-date window, `filter` the role scope; `clients` and
`payments` are the two tables. -/
def getPendingAmount (dateRange : DateRange) (filter : Option RoleBasedFilter)
    (clients : List ClientInfo) (payments : List ClientPayment) : PendingResult :=
  let clientIds := pendingScopeClientIds dateRange filter clients
  if clientIds.isEmpty then
    { pendingAmount := 0, initial := 0, beforeVisa := 0, afterVisa := 0,
      submittedVisa := 0 }
  else
    let rows := pendingScopeRows dateRange filter clients payments
    let totalExpected := ((clientExpectedMap rows).map (·.2)).sum
    let totalPaid :=
      sumStageAmount rows "INITIAL" + sumStageAmount rows "BEFORE_VISA" +
        sumStageAmount rows "AFTER_VISA"
    { pendingAmount := max 0 (totalExpected - totalPaid),
      initial := sumStageAmount rows "INITIAL",
      beforeVisa := sumStageAmount rows "BEFORE_VISA",
      afterVisa := sumStageAmount rows "AFTER_VISA",
      submittedVisa := sumStageAmount rows "SUBMITTED_VISA" }

/-- Claim-side reading of the expected total: exactly one `totalPayment`
value per distinct client among the rows — the value carried by that
client's first stage row (all of a client's rows are expected to repeat the
same value, so this is the "deduplicated" total of the spec). -/
def firstPerClientSum : List ClientPayment → ℚ
  | [] => 0
  | p :: ps =>
    p.totalPayment + firstPerClientSum (ps.filter (fun q => q.clientId ≠ p.clientId))
termination_by l => l.length
decreasing_by
  simp only [List.length_cons]
  exact Nat.lt_succ_of_le (List.length_filter_le _ _)

/-- Claim-side reading of the paid total: the amounts of all INITIAL,
BEFORE_VISA and AFTER_VISA rows (SUBMITTED_VISA excluded). -/
def paidSum (rows : List ClientPayment) : ℚ :=
  ((rows.filter (fun p =>
    p.stage = "INITIAL" || p.stage = "BEFORE_VISA" || p.stage = "AFTER_VISA")).map
      (·.amount)).sum

/-- The fold that builds `clientExpectedMap` keeps, per client, exactly the
first `totalPayment` seen: generalised over the accumulator. -/
theorem clientExpectedMap_foldl_sum (rows : List ClientPayment) :
    ∀ acc : List (Nat × ℚ),
      ((rows.foldl expectedStep acc).map (·.2)).sum
      = ((acc.map (·.2)).sum +
          firstPerClientSum
            (rows.filter (fun p => !(acc.any (fun e => e.1 = p.clientId))))) := by
  induction rows with
  | nil => intro acc; simp [firstPerClientSum]
  | cons p ps ih =>
    intro acc
    rw [List.foldl_cons]
    by_cases h : acc.any (fun e => e.1 = p.clientId) = true
    · have hstep : expectedStep acc p = acc := by
        simp only [expectedStep]; rw [if_pos h]
      have hfilter :
          (p :: ps).filter (fun q => !(acc.any (fun e => e.1 = q.clientId)))
          = ps.filter (fun q => !(acc.any (fun e => e.1 = q.clientId))) := by
        rw [List.filter_cons]
        simp [h]
      rw [hstep, ih acc, hfilter]
    · have hfalse : acc.any (fun e => e.1 = p.clientId) = false :=
        Bool.eq_false_iff.mpr h
      have hstep : expectedStep acc p = acc ++ [(p.clientId, p.totalPayment)] := by
        simp only [expectedStep]; rw [if_neg h]
      have hfilter :
          ps.filter (fun q =>
            !((acc ++ [(p.clientId, p.totalPayment)]).any (fun e => e.1 = q.clientId)))
          = (ps.filter (fun q => !(acc.any (fun e => e.1 = q.clientId)))).filter
              (fun q => q.clientId ≠ p.clientId) := by
        rw [List.filter_filter]
        apply List.filter_congr
        intro q _
        simp only [List.any_append, List.any_cons, List.any_nil, Bool.or_false,
          Bool.not_or, decide_not]
        by_cases hq : q.clientId = p.clientId
        · simp [hq]
        · have hq' : ¬ p.clientId = q.clientId := fun hpq => hq (Eq.symm hpq)
          simp [hq, hq', Bool.and_comm]
      have hconsfilter :
          (p :: ps).filter (fun q => !(acc.any (fun e => e.1 = q.clientId)))
          = p :: ps.filter (fun q => !(acc.any (fun e => e.1 = q.clientId))) := by
        rw [List.filter_cons]
        simp [hfalse]
      rw [hstep, ih (acc ++ [(p.clientId, p.totalPayment)]), hfilter, hconsfilter,
        firstPerClientSum]
      simp only [List.map_append, List.sum_append, List.map_cons, List.sum_cons,
        List.map_nil, List.sum_nil]
      ring

/-- The per-stage sums of the three revenue stages add up to the combined
three-stage paid total. -/
theorem three_stage_paidSum (rows : List ClientPayment) :
    sumStageAmount rows "INITIAL" + sumStageAmount rows "BEFORE_VISA" +
      sumStageAmount rows "AFTER_VISA" = paidSum rows := by
  induction rows with
  | nil => simp [sumStageAmount, paidSum]
  | cons p ps ih =>
    simp only [sumStageAmount, paidSum, List.filter_cons] at ih ⊢
    by_cases h1 : p.stage = "INITIAL" <;>
      by_cases h2 : p.stage = "BEFORE_VISA" <;>
        by_cases h3 : p.stage = "AFTER_VISA" <;>
          simp_all <;> ring_nf <;> linarith

/-- The fold-built expected map sums to exactly one `totalPayment` per
distinct client: the first stage row's value. -/
theorem clientExpectedMap_sum (rows : List ClientPayment) :
    ((clientExpectedMap rows).map (·.2)).sum = firstPerClientSum rows := by
  unfold clientExpectedMap
  rw [clientExpectedMap_foldl_sum rows []]
  simp

/-- Closed form of `getPendingAmount`: the outstanding figure is
`max 0 (expected − paid)` over the in-scope rows, and hence never negative.
Shared by the dashboard-level theorems. -/
theorem pendingAmount_formula (dateRange : DateRange) (filter : Option RoleBasedFilter)
    (clients : List ClientInfo) (payments : List ClientPayment) :
    (getPendingAmount dateRange filter clients payments).pendingAmount
      = max 0 (firstPerClientSum (pendingScopeRows dateRange filter clients payments)
          - paidSum (pendingScopeRows dateRange filter clients payments)) ∧
    0 ≤ (getPendingAmount dateRange filter clients payments).pendingAmount := by
  by_cases h : (pendingScopeClientIds dateRange filter clients).isEmpty
  · have hids : pendingScopeClientIds dateRange filter clients = [] :=
      List.isEmpty_iff.mp h
    have hrows : pendingScopeRows dateRange filter clients payments = [] := by
      unfold pendingScopeRows
      rw [hids]
      simp
    constructor
    · simp [getPendingAmount, h, hrows, firstPerClientSum, paidSum]
    · simp [getPendingAmount, h]
  · have hne : (pendingScopeClientIds dateRange filter clients).isEmpty = false :=
      Bool.eq_false_iff.mpr h
    constructor
    · simp only [getPendingAmount, hne, Bool.false_eq_true, if_false]
      rw [clientExpectedMap_sum, three_stage_paidSum]
    · simp only [getPendingAmount, hne, Bool.false_eq_true, if_false]
      exact le_max_left 0 _

/-- C1: the outstanding balance is `max 0 (expected − paid)` with `expected`
summing one `totalPayment` per in-scope non-archived client (taken from that
client's first stage row, i.e. deduplicated across the client's rows) and
`paid` summing the amounts of the INITIAL, BEFORE_VISA and AFTER_VISA rows
only; it is never negative; and on the spec's scenario (one client,
`totalPayment = 100000`, INITIAL amount 40000) it is 60000, becoming 30000
after a second BEFORE_VISA row of amount 30000 with the same `totalPayment`. -/
theorem C1_outstanding_balance_spec :
    (∀ (dateRange : DateRange) (filter : Option RoleBasedFilter)
        (clients : List ClientInfo) (payments : List ClientPayment),
      (getPendingAmount dateRange filter clients payments).pendingAmount
        = max 0 (firstPerClientSum (pendingScopeRows dateRange filter clients payments)
            - paidSum (pendingScopeRows dateRange filter clients payments)) ∧
      0 ≤ (getPendingAmount dateRange filter clients payments).pendingAmount) ∧
    (getPendingAmount (getAllTimeDateRange ⟨2026, 9, 11⟩) none
      [⟨1, 7, false, ⟨2024, 0, 15⟩⟩]
      [⟨1, 1, 100000, "INITIAL", 40000, "2024-01-20", "INV-1", none⟩]).pendingAmount
      = 60000 ∧
    (getPendingAmount (getAllTimeDateRange ⟨2026, 9, 11⟩) none
      [⟨1, 7, false, ⟨2024, 0, 15⟩⟩]
      [⟨1, 1, 100000, "INITIAL", 40000, "2024-01-20", "INV-1", none⟩,
       ⟨2, 1, 100000, "BEFORE_VISA", 30000, "2024-02-20", "INV-2", none⟩]).pendingAmount
      = 30000 := by
  refine ⟨fun dr f cs ps => pendingAmount_formula dr f cs ps, ?_, ?_⟩
  · rw [(pendingAmount_formula _ _ _ _).1]
    have hrows : pendingScopeRows (getAllTimeDateRange ⟨2026, 9, 11⟩) none
        [⟨1, 7, false, ⟨2024, 0, 15⟩⟩]
        [⟨1, 1, 100000, "INITIAL", 40000, "2024-01-20", "INV-1", none⟩]
        = [⟨1, 1, 100000, "INITIAL", 40000, "2024-01-20", "INV-1", none⟩] := by
      decide
    rw [hrows]
    have h1 : firstPerClientSum
        [⟨1, 1, 100000, "INITIAL", 40000, "2024-01-20", "INV-1", none⟩] = 100000 := by
      simp [firstPerClientSum]
    have h2 : paidSum
        [⟨1, 1, 100000, "INITIAL", 40000, "2024-01-20", "INV-1", none⟩] = 40000 := by
      simp [paidSum]
    rw [h1, h2]
    rw [max_eq_right (by norm_num)]
    norm_num
  · rw [(pendingAmount_formula _ _ _ _).1]
    have hrows : pendingScopeRows (getAllTimeDateRange ⟨2026, 9, 11⟩) none
        [⟨1, 7, false, ⟨2024, 0, 15⟩⟩]
        [⟨1, 1, 100000, "INITIAL", 40000, "2024-01-20", "INV-1", none⟩,
         ⟨2, 1, 100000, "BEFORE_VISA", 30000, "2024-02-20", "INV-2", none⟩]
        = [⟨1, 1, 100000, "INITIAL", 40000, "2024-01-20", "INV-1", none⟩,
           ⟨2, 1, 100000, "BEFORE_VISA", 30000, "2024-02-20", "INV-2", none⟩] := by
      decide
    rw [hrows]
    have h1 : firstPerClientSum
        [⟨1, 1, 100000, "INITIAL", 40000, "2024-01-20", "INV-1", none⟩,
         ⟨2, 1, 100000, "BEFORE_VISA", 30000, "2024-02-20", "INV-2", none⟩]
        = 100000 := by
      simp [firstPerClientSum]
    have h2 : paidSum
        [⟨1, 1, 100000, "INITIAL", 40000, "2024-01-20", "INV-1", none⟩,
         ⟨2, 1, 100000, "BEFORE_VISA", 30000, "2024-02-20", "INV-2", none⟩]
        = 70000 := by
      simp [paidSum]
      norm_num
    rw [h1, h2]
    rw [max_eq_right (by norm_num)]
    norm_num

/- ==============================
   getDashboardStats range plumbing
   (dashboard.model.ts lines 1833–1972) — claims C5, C6
============================== -/

/-- The date range each dashboard figure is computed over. -/
structure DashboardRanges where
  summaryRange : DateRange
  pendingRange : DateRange
  revenueRange : DateRange
  chartRange : DateRange
deriving DecidableEq, Repr

/-- The range wiring of `getDashboardStats` (lines 1841–1846, 1869–1875,
1919–1927 and 1930–1943): summary cards follow the filter with "today"
collapsing to the current day; the outstanding balance always gets the
all-time range; the admin/manager revenue total gets the weekly range when
the filter is "today" and the summary range otherwise; the chart gets
`getDateRange filter` (7 days for "today"). -/
def getDashboardStatsRanges (filter : DashboardFilter) (now : SimpleDate) :
    DashboardRanges :=
  let dateRange := getDateRange filter now
  let todayOnlyDateRange := getTodayOnlyDateRange now
  let allTimeDateRange := getAllTimeDateRange now
  let summaryDateRange := if filter = .today then todayOnlyDateRange else dateRange
  { summaryRange := summaryDateRange
    pendingRange := allTimeDateRange
    revenueRange := if filter = .today then getDateRange .weekly now else summaryDateRange
    chartRange := dateRange }

/-- The `totalPendingAmount` figure as `getDashboardStats` computes it:
`getPendingAmount` over the range the wiring assigns to it. -/
def getDashboardTotalPendingAmount (filter : DashboardFilter) (now : SimpleDate)
    (roleFilter : Option RoleBasedFilter) (clients : List ClientInfo)
    (payments : List ClientPayment) : ℚ :=
  (getPendingAmount (getDashboardStatsRanges filter now).pendingRange roleFilter
    clients payments).pendingAmount

/-- C5 counterexample: with the "today" filter the revenue total and the
chart are **not** computed over [midnight today, now] — at now = 2026-10-11
both their windows start on 2026-10-04, strictly before midnight today, so
they include earlier days (the claim as stated is false). -/
theorem C5_today_window_counterexample :
    (getDashboardStatsRanges .today ⟨2026, 9, 11⟩).revenueRange
      ≠ getTodayOnlyDateRange ⟨2026, 9, 11⟩ ∧
    (getDashboardStatsRanges .today ⟨2026, 9, 11⟩).revenueRange.start
      = ⟨2026, 9, 4⟩ ∧
    dateLT (getDashboardStatsRanges .today ⟨2026, 9, 11⟩).revenueRange.start
      ⟨2026, 9, 11⟩ = true ∧
    (getDashboardStatsRanges .today ⟨2026, 9, 11⟩).chartRange.start
      = ⟨2026, 9, 4⟩ ∧
    dateLT (getDashboardStatsRanges .today ⟨2026, 9, 11⟩).chartRange.start
      ⟨2026, 9, 11⟩ = true := by
  refine ⟨?_, by decide, by decide, by decide, by decide⟩
  decide

/-- C5 amended: with the "today" filter the summary counts and amounts are
computed over the current calendar day only, but the revenue total uses the
rolling last-7-days window, the chart uses the 7-day `getDateRange` window
(both starting 7 days before now), and the outstanding balance uses the
all-time range. -/
theorem C5_today_window_amended (now : SimpleDate) :
    (getDashboardStatsRanges .today now).summaryRange = getTodayOnlyDateRange now ∧
    (getDashboardStatsRanges .today now).summaryRange.start = now ∧
    (getDashboardStatsRanges .today now).summaryRange.stop = now ∧
    (getDashboardStatsRanges .today now).revenueRange = getDateRange .weekly now ∧
    (getDashboardStatsRanges .today now).revenueRange.start = subSevenDays now ∧
    (getDashboardStatsRanges .today now).chartRange = getDateRange .today now ∧
    (getDashboardStatsRanges .today now).chartRange.start = subSevenDays now ∧
    (getDashboardStatsRanges .today now).pendingRange = getAllTimeDateRange now := by
  refine ⟨rfl, rfl, rfl, rfl, rfl, rfl, rfl, rfl⟩

/-- `getDashboardStats` hands `getPendingAmount` the all-time range no
matter which window filter was requested. -/
theorem pendingRange_all_time (filter : DashboardFilter) (now : SimpleDate) :
    (getDashboardStatsRanges filter now).pendingRange = getAllTimeDateRange now := by
  cases filter <;> rfl

/-- `getPendingAmount` depends on the client table only through the
in-scope client ids. -/
theorem getPendingAmount_congr_clients (dateRange : DateRange)
    (filter : Option RoleBasedFilter) (clients clients' : List ClientInfo)
    (payments : List ClientPayment)
    (h : pendingScopeClientIds dateRange filter clients
        = pendingScopeClientIds dateRange filter clients') :
    getPendingAmount dateRange filter clients payments
      = getPendingAmount dateRange filter clients' payments := by
  unfold getPendingAmount pendingScopeRows
  rw [h]

/-- C6 counterexample: the outstanding balance does **not** cover every
non-archived in-scope client regardless of enrollment date. A non-archived
client enrolled on 1999-12-31 (before the all-time range's hard-coded
2000-01-01 start) contributes nothing — the identical data with enrollment
a day later contributes 100000. -/
theorem C6_pending_counterexample :
    getDashboardTotalPendingAmount .today ⟨2026, 9, 11⟩ none
      [⟨1, 7, false, ⟨1999, 11, 31⟩⟩]
      [⟨1, 1, 100000, "INITIAL", 0, "1999-12-31", "INV-1", none⟩] = 0 ∧
    getDashboardTotalPendingAmount .today ⟨2026, 9, 11⟩ none
      [⟨1, 7, false, ⟨2000, 0, 1⟩⟩]
      [⟨1, 1, 100000, "INITIAL", 0, "1999-12-31", "INV-1", none⟩] = 100000 ∧
    (⟨1, 7, false, ⟨1999, 11, 31⟩⟩ : ClientInfo).archived = false := by
  refine ⟨?_, ?_, rfl⟩
  · show (getPendingAmount (getAllTimeDateRange ⟨2026, 9, 11⟩) none
      [⟨1, 7, false, ⟨1999, 11, 31⟩⟩]
      [⟨1, 1, 100000, "INITIAL", 0, "1999-12-31", "INV-1", none⟩]).pendingAmount = 0
    rw [(pendingAmount_formula _ _ _ _).1]
    have hrows : pendingScopeRows (getAllTimeDateRange ⟨2026, 9, 11⟩) none
        [⟨1, 7, false, ⟨1999, 11, 31⟩⟩]
        [⟨1, 1, 100000, "INITIAL", 0, "1999-12-31", "INV-1", none⟩] = [] := by
      decide
    rw [hrows]
    simp [firstPerClientSum, paidSum]
  · show (getPendingAmount (getAllTimeDateRange ⟨2026, 9, 11⟩) none
      [⟨1, 7, false, ⟨2000, 0, 1⟩⟩]
      [⟨1, 1, 100000, "INITIAL", 0, "1999-12-31", "INV-1", none⟩]).pendingAmount = 100000
    rw [(pendingAmount_formula _ _ _ _).1]
    have hrows : pendingScopeRows (getAllTimeDateRange ⟨2026, 9, 11⟩) none
        [⟨1, 7, false, ⟨2000, 0, 1⟩⟩]
        [⟨1, 1, 100000, "INITIAL", 0, "1999-12-31", "INV-1", none⟩]
        = [⟨1, 1, 100000, "INITIAL", 0, "1999-12-31", "INV-1", none⟩] := by
      decide
    rw [hrows]
    have h1 : firstPerClientSum
        [⟨1, 1, 100000, "INITIAL", 0, "1999-12-31", "INV-1", none⟩] = 100000 := by
      simp [firstPerClientSum]
    have h2 : paidSum
        [⟨1, 1, 100000, "INITIAL", 0, "1999-12-31", "INV-1", none⟩] = 0 := by
      simp [paidSum]
    rw [h1, h2]
    rw [max_eq_right (by norm_num)]
    norm_num

/-- C6 amended: the outstanding-balance figure is independent of the
selected window filter (the wiring always passes the all-time range), and
the clients that contribute are exactly the non-archived in-scope clients
whose enrollment date lies between 2000-01-01 and the current day —
clients enrolled outside that span are excluded. -/
theorem C6_pending_filter_independent_amended :
    (∀ (f1 f2 : DashboardFilter) (now : SimpleDate)
        (roleFilter : Option RoleBasedFilter) (clients : List ClientInfo)
        (payments : List ClientPayment),
      getDashboardTotalPendingAmount f1 now roleFilter clients payments
        = getDashboardTotalPendingAmount f2 now roleFilter clients payments) ∧
    (∀ (filter : DashboardFilter) (now : SimpleDate)
        (roleFilter : Option RoleBasedFilter) (clients : List ClientInfo)
        (payments : List ClientPayment),
      getDashboardTotalPendingAmount filter now roleFilter clients payments
        = (getPendingAmount (getAllTimeDateRange now) roleFilter
            (clients.filter (fun c =>
              dateLE ⟨2000, 0, 1⟩ c.enrollmentDate && dateLE c.enrollmentDate now))
            payments).pendingAmount) := by
  have key : ∀ (filter : DashboardFilter) (now : SimpleDate)
      (roleFilter : Option RoleBasedFilter) (clients : List ClientInfo)
      (payments : List ClientPayment),
      getDashboardTotalPendingAmount filter now roleFilter clients payments
        = (getPendingAmount (getAllTimeDateRange now) roleFilter
            (clients.filter (fun c =>
              dateLE ⟨2000, 0, 1⟩ c.enrollmentDate && dateLE c.enrollmentDate now))
            payments).pendingAmount := by
    intro filter now roleFilter clients payments
    unfold getDashboardTotalPendingAmount
    rw [pendingRange_all_time]
    congr 1
    apply getPendingAmount_congr_clients
    unfold pendingScopeClientIds
    rw [List.filter_filter]
    congr 1
    apply List.filter_congr
    intro c _
    cases h1 : dateLE ⟨2000, 0, 1⟩ c.enrollmentDate <;>
      cases h2 : dateLE c.enrollmentDate now <;>
        simp [getAllTimeDateRange, h1, h2]
  constructor
  · intro f1 f2 now roleFilter clients payments
    rw [key f1, key f2]
  · exact key

/- ==============================
   Leaderboard ranker (leaderboard model, getLeaderboard lines 302–316)
   — claim C7
============================== -/

/-- One entry of the `counsellorStats` array built by `getLeaderboard`
(the fields the sort and rank assignment read, plus identity). -/
structure CounsellorStat where
  counsellorId : Nat
  fullName : String
  enrollments : Nat
  revenue : ℚ
  target : Int
  achievedTarget : Nat
deriving DecidableEq, Repr

/-- The comparator of `counsellorStats.sort` (lines 302–308) read as "`a`
stays before `b`": descending by enrollments, ties broken descending by
revenue. -/
def leaderboardBefore (a b : CounsellorStat) : Prop :=
  b.enrollments < a.enrollments ∨
    (a.enrollments = b.enrollments ∧ b.revenue ≤ a.revenue)

instance : DecidableRel leaderboardBefore := fun a b => by
  unfold leaderboardBefore
  infer_instance

instance : IsTotal CounsellorStat leaderboardBefore where
  total a b := by
    unfold leaderboardBefore
    rcases Nat.lt_trichotomy a.enrollments b.enrollments with h | h | h
    · exact Or.inr (Or.inl h)
    · rcases le_total b.revenue a.revenue with hr | hr
      · exact Or.inl (Or.inr ⟨h, hr⟩)
      · exact Or.inr (Or.inr ⟨h.symm, hr⟩)
    · exact Or.inl (Or.inl h)

instance : IsTrans CounsellorStat leaderboardBefore where
  trans a b c hab hbc := by
    unfold leaderboardBefore at hab hbc ⊢
    rcases hab with h1 | ⟨h1, h1r⟩ <;> rcases hbc with h2 | ⟨h2, h2r⟩
    · exact Or.inl (h2.trans h1)
    · exact Or.inl (h2 ▸ h1)
    · exact Or.inl (h1 ▸ h2)
    · exact Or.inr ⟨h1.trans h2, h2r.trans h1r⟩

/-- The sort-then-rank step of `getLeaderboard` (lines 302–316): the stats
array is sorted with the comparator (JS `Array.prototype.sort` is stable;
insertion sort with the "stays before" relation realises the same result)
and each entry gets `rank := index + 1`. -/
def getLeaderboardRanked (counsellorStats : List CounsellorStat) :
    List (CounsellorStat × Nat) :=
  (List.insertionSort leaderboardBefore counsellorStats).enum.map
    (fun stat => (stat.2, stat.1 + 1))

/-- C7: the leaderboard is the input stats sorted descending by
(enrollments, revenue); ranks are exactly 1..n, strictly increasing with
sort position and pairwise distinct (so identical (enrollments, revenue)
pairs still get different ranks, determined by list position alone). -/
theorem C7_leaderboard_rank_spec (stats : List CounsellorStat) :
    ((getLeaderboardRanked stats).map Prod.snd = List.range' 1 stats.length) ∧
    List.Sorted (· < ·) ((getLeaderboardRanked stats).map Prod.snd) ∧
    ((getLeaderboardRanked stats).map Prod.snd).Nodup ∧
    List.Sorted leaderboardBefore ((getLeaderboardRanked stats).map Prod.fst) ∧
    ((getLeaderboardRanked stats).map Prod.fst).Perm stats := by
  have hlen : (List.insertionSort leaderboardBefore stats).length = stats.length :=
    (List.perm_insertionSort leaderboardBefore stats).length_eq
  have hsnd : (getLeaderboardRanked stats).map Prod.snd
      = List.range' 1 stats.length := by
    unfold getLeaderboardRanked
    rw [List.map_map]
    have : (Prod.snd ∘ fun stat : Nat × CounsellorStat => (stat.2, stat.1 + 1))
        = (fun stat : Nat × CounsellorStat => stat.1 + 1) := rfl
    rw [this]
    have henum : (List.insertionSort leaderboardBefore stats).enum.map
        (fun stat : Nat × CounsellorStat => stat.1 + 1)
        = ((List.insertionSort leaderboardBefore stats).enum.map Prod.fst).map
            (· + 1) := by
      rw [List.map_map]
      rfl
    rw [henum, List.enum_map_fst, hlen, List.range'_eq_map_range]
    apply List.map_congr_left
    intro a _
    exact Nat.add_comm a 1
  have hfst : (getLeaderboardRanked stats).map Prod.fst
      = List.insertionSort leaderboardBefore stats := by
    unfold getLeaderboardRanked
    rw [List.map_map]
    have : (Prod.fst ∘ fun stat : Nat × CounsellorStat => (stat.2, stat.1 + 1))
        = Prod.snd := rfl
    rw [this, List.enum_map_snd]
  refine ⟨hsnd, ?_, ?_, ?_, ?_⟩
  · rw [hsnd]
    exact List.pairwise_lt_range' 1 stats.length
  · rw [hsnd]
    exact (List.pairwise_lt_range' 1 stats.length).imp Nat.ne_of_lt
  · rw [hfst]
    exact List.sorted_insertionSort leaderboardBefore stats
  · rw [hfst]
    exact List.perm_insertionSort leaderboardBefore stats

/- ==============================
   setTarget (leaderboard model lines 466–595) — claim C9
============================== -/

/-- A `users` row (the fields `setTarget` reads). -/
structure User where
  id : Nat
  role : String
  fullName : String := ""
  managerId : Option Nat := none
deriving DecidableEq, Repr

/-- A `leaderBoard` row. `createdAt` is represented by the year and month
that `EXTRACT(YEAR|MONTH FROM createdAt)` yields (month 1-based, as in SQL). -/
structure LeaderBoardRow where
  id : Nat
  manager_id : Nat
  counsellor_id : Nat
  target : Int
  achieved_target : Nat
  rank : Int
  createdAtYear : Int
  createdAtMonth : Int
deriving DecidableEq, Repr

/-- The tables `setTarget` touches. -/
structure LeaderboardState where
  users : List User
  clients : List ClientInfo
  leaderBoard : List LeaderBoardRow
deriving DecidableEq, Repr

/-- Fresh serial id for an insert. -/
def freshId (ids : List Nat) : Nat := ids.foldl max 0 + 1

/-- `setTarget` (leaderboard model lines 466–595). `nowYear`/`nowMonth` are
the current clock values a fresh row's `createdAt` would be extracted to
(the table has no explicit period columns). JS falsiness makes the guard
`!counsellorId || !managerId || !target || target < 0` reject zero for all
three numeric inputs. -/
def setTarget (counsellorId managerId : Nat) (target : Int) (month year : Int)
    (nowYear nowMonth : Int) (state : LeaderboardState) :
    Except String (String × LeaderBoardRow × LeaderboardState) := do
  if counsellorId = 0 || managerId = 0 || target = 0 || target < 0 then
    throw "Invalid input parameters"
  if month < 1 || month > 12 then
    throw "Invalid month. Must be between 1 and 12"
  if year < 2000 || year > 3000 then
    throw "Invalid year"
  let user ← match state.users.find? (fun u => u.id = counsellorId) with
    | some u => pure u
    | none => throw s!"User with ID {counsellorId} not found"
  if user.role ≠ "counsellor" then
    let r := user.role
    throw s!"User with ID {counsellorId} is not a counsellor (current role: {r})"
  let _counsellor := state.users.find? (fun u =>
    u.id = counsellorId && u.role = "counsellor")
  let manager := state.users.find? (fun u =>
    u.id = managerId && u.role = "manager")
  if manager.isNone then
    throw "Manager not found"
  let existingTarget := state.leaderBoard.find? (fun t =>
    t.counsellor_id = counsellorId && t.createdAtYear = year &&
      t.createdAtMonth = month)
  -- achieved target: enrollments of that counsellor inside the calendar month
  let monthIdx : Nat := (month - 1).toNat
  let startDate : SimpleDate := ⟨year, monthIdx, 1⟩
  let endDate : SimpleDate := ⟨year, monthIdx, daysInMonth year monthIdx⟩
  let achievedTarget := (state.clients.filter (fun c =>
    c.counsellorId = counsellorId && c.archived = false &&
      dateLE startDate c.enrollmentDate && dateLE c.enrollmentDate endDate)).length
  let tempRank : Int := 0
  match existingTarget with
  | some t =>
    let updated : LeaderBoardRow :=
      { t with manager_id := managerId, target := target,
               achieved_target := achievedTarget, rank := tempRank }
    let newBoard := state.leaderBoard.map (fun row =>
      if row.id = t.id then updated else row)
    pure ("UPDATED", updated, { state with leaderBoard := newBoard })
  | none =>
    let created : LeaderBoardRow :=
      { id := freshId (state.leaderBoard.map (·.id)),
        manager_id := managerId, counsellor_id := counsellorId,
        target := target, achieved_target := achievedTarget, rank := tempRank,
        createdAtYear := nowYear, createdAtMonth := nowMonth }
    pure ("CREATED", created, { state with leaderBoard := state.leaderBoard ++ [created] })

/-- C9: a zero target always trips the falsiness guard: `setTarget` with
`target = 0` returns the "Invalid input parameters" error for every state
(so before any lookup, and with no write), even though 0 would pass the
separate `target < 0` check. -/
theorem C9_setTarget_zero_target :
    (∀ (counsellorId managerId : Nat) (month year nowYear nowMonth : Int)
        (state : LeaderboardState),
      setTarget counsellorId managerId 0 month year nowYear nowMonth state
        = Except.error "Invalid input parameters") ∧
    ¬ ((0 : Int) < 0) := by
  refine ⟨?_, by norm_num⟩
  intro counsellorId managerId month year nowYear nowMonth state
  unfold setTarget
  simp
  rfl

/- ==============================
   saveClientPayment (clientPayment.model.ts lines 22–145) — claim C10
============================== -/

/-- JS `a || b` for an optional string: `undefined`/`null` and the empty
string are falsy and fall through to the default. -/
def jsOr (o : Option String) (dflt : String) : String :=
  match o with
  | some s => if s = "" then dflt else s
  | none => dflt

/-- The synthetic invoice number `INV-<Date.now()>-<random suffix>`
(clientPayment.model.ts line 48). -/
def genInvoiceNo (timestamp : Nat) (rand : String) : String :=
  "INV-" ++ toString timestamp ++ "-" ++ rand

/-- JS falsiness of an optional numeric input (`!amount`): absent or 0. -/
def qFalsy (o : Option ℚ) : Bool :=
  match o with
  | none => true
  | some q => q = 0

/-- `SaveClientPaymentInput` from clientPayment.model.ts lines 11–20
(numeric strings modelled by their values, presence by `Option`). -/
structure SaveClientPaymentInput where
  paymentId : Option Nat := none
  clientId : Nat
  totalPayment : Option ℚ
  stage : String
  amount : Option ℚ
  paymentDate : Option String := none
  invoiceNo : Option String := none
  remarks : Option String := none
deriving DecidableEq, Repr

/-- The create path of `saveClientPayment` (lines 114–145): duplicate check
on the final invoice number, then insert. -/
def saveClientPaymentCreate (clientId : Nat) (totalPayment : ℚ) (stage : String)
    (amount : ℚ) (finalPaymentDate finalInvoiceNo : String)
    (remarksVal : Option String) (payments : List ClientPayment) :
    Except String (String × ClientPayment × List ClientPayment) :=
  if payments.any (fun p => p.invoiceNo = finalInvoiceNo) then
    .error ("Invoice number \"" ++ finalInvoiceNo ++
      "\" already exists. Please use a different invoice number.")
  else
    let newPayment : ClientPayment :=
      ⟨freshId (payments.map (·.paymentId)), clientId, totalPayment, stage,
        amount, finalPaymentDate, finalInvoiceNo, remarksVal⟩
    .ok ("CREATED", newPayment, payments ++ [newPayment])

/-- The update path of `saveClientPayment` (lines 53–112): look up the row,
re-check uniqueness when the invoice number changes, then overwrite. -/
def saveClientPaymentUpdate (pid clientId : Nat) (totalPayment : ℚ)
    (stage : String) (amount : ℚ) (finalPaymentDate finalInvoiceNo : String)
    (remarksVal : Option String) (payments : List ClientPayment) :
    Except String (String × ClientPayment × List ClientPayment) :=
  match payments.find? (fun p => p.paymentId = pid) with
  | none => .error "Payment not found"
  | some existing =>
    if finalInvoiceNo ≠ existing.invoiceNo &&
        payments.any (fun p => p.invoiceNo = finalInvoiceNo && p.paymentId ≠ pid) then
      .error ("Invoice number \"" ++ finalInvoiceNo ++
        "\" already exists. Please use a different invoice number.")
    else
      let updated : ClientPayment :=
        ⟨pid, clientId, totalPayment, stage, amount, finalPaymentDate,
          finalInvoiceNo, remarksVal⟩
      .ok ("UPDATED", updated,
        payments.map (fun p => if p.paymentId = pid then updated else p))

/-- `saveClientPayment` (clientPayment.model.ts lines 22–145). `today`,
`ts` and `rand` stand for `new Date()...` and the `Date.now()`/random pair
the defaulting uses (lines 45–48); `payments` is the table. -/
def saveClientPayment (input : SaveClientPaymentInput) (today : String)
    (ts : Nat) (rand : String) (payments : List ClientPayment) :
    Except String (String × ClientPayment × List ClientPayment) :=
  if input.clientId = 0 then .error "Valid clientId is required"
  else if input.stage = "" || qFalsy input.amount || qFalsy input.totalPayment then
    .error "Required payment fields missing: stage, amount, totalPayment"
  else
    let totalPayment := input.totalPayment.getD 0
    let amount := input.amount.getD 0
    let finalPaymentDate := jsOr input.paymentDate today
    let finalInvoiceNo := jsOr input.invoiceNo (genInvoiceNo ts rand)
    let remarksVal : Option String :=
      match input.remarks with
      | some r => if r = "" then none else some r.trim
      | none => none
    match input.paymentId with
    | some pid =>
      if 0 < pid then
        saveClientPaymentUpdate pid input.clientId totalPayment input.stage
          amount finalPaymentDate finalInvoiceNo remarksVal payments
      else
        saveClientPaymentCreate input.clientId totalPayment input.stage
          amount finalPaymentDate finalInvoiceNo remarksVal payments
    | none =>
      saveClientPaymentCreate input.clientId totalPayment input.stage
        amount finalPaymentDate finalInvoiceNo remarksVal payments

/-- C10: a stored staged-payment row never lacks `paymentDate` or
`invoiceNo`: on any successful save where the caller omitted them (absent or
empty), the stored row carries the current date and the synthetic
`INV-<timestamp>-<random>` number (which is never empty); and the create
path applies its invoice-number uniqueness check to this generated value,
rejecting the insert when it already exists. -/
theorem C10_saveClientPayment_defaults :
    (∀ (input : SaveClientPaymentInput) (today : String) (ts : Nat) (rand : String)
        (payments : List ClientPayment) (action : String) (payment : ClientPayment)
        (rest : List ClientPayment),
      (input.paymentDate = none ∨ input.paymentDate = some "") →
      (input.invoiceNo = none ∨ input.invoiceNo = some "") →
      saveClientPayment input today ts rand payments
        = Except.ok (action, payment, rest) →
      payment.paymentDate = today ∧ payment.invoiceNo = genInvoiceNo ts rand) ∧
    (∀ (input : SaveClientPaymentInput) (today : String) (ts : Nat) (rand : String)
        (payments : List ClientPayment),
      input.clientId ≠ 0 → input.stage ≠ "" → qFalsy input.amount = false →
      qFalsy input.totalPayment = false →
      input.paymentId = none → input.invoiceNo = none →
      payments.any (fun p => p.invoiceNo = genInvoiceNo ts rand) = true →
      saveClientPayment input today ts rand payments
        = .error ("Invoice number \"" ++ genInvoiceNo ts rand ++
            "\" already exists. Please use a different invoice number.")) ∧
    (∀ (ts : Nat) (rand : String), genInvoiceNo ts rand ≠ "") := by
  refine ⟨?_, ?_, ?_⟩
  · intro input today ts rand payments action payment rest hd hi h
    have hfd : jsOr input.paymentDate today = today := by
      rcases hd with h' | h' <;> simp [jsOr, h']
    have hfi : jsOr input.invoiceNo (genInvoiceNo ts rand) = genInvoiceNo ts rand := by
      rcases hi with h' | h' <;> simp [jsOr, h']
    unfold saveClientPayment at h
    by_cases h1 : input.clientId = 0
    · rw [if_pos h1] at h
      exact absurd h (by simp)
    rw [if_neg h1] at h
    by_cases h2 : (input.stage = "" || qFalsy input.amount ||
        qFalsy input.totalPayment) = true
    · rw [if_pos h2] at h
      exact absurd h (by simp)
    rw [if_neg h2] at h
    simp only [hfd, hfi] at h
    rcases hpid : input.paymentId with _ | pid <;> rw [hpid] at h <;>
      simp only [] at h
    · unfold saveClientPaymentCreate at h
      by_cases hdup : (payments.any
          (fun p => p.invoiceNo = genInvoiceNo ts rand)) = true
      · rw [if_pos hdup] at h
        exact absurd h (by simp)
      · rw [if_neg hdup] at h
        simp only [Except.ok.injEq, Prod.mk.injEq] at h
        rw [← h.2.1]
        exact ⟨rfl, rfl⟩
    · by_cases hpos : 0 < pid
      · rw [if_pos hpos] at h
        unfold saveClientPaymentUpdate at h
        rcases hfind : payments.find? (fun p => p.paymentId = pid)
            with _ | existing <;> rw [hfind] at h <;> simp only [] at h
        · exact absurd h (by simp)
        · by_cases hdup : (genInvoiceNo ts rand ≠ existing.invoiceNo &&
              payments.any (fun p =>
                p.invoiceNo = genInvoiceNo ts rand && p.paymentId ≠ pid)) = true
          · rw [if_pos hdup] at h
            exact absurd h (by simp)
          · rw [if_neg hdup] at h
            simp only [Except.ok.injEq, Prod.mk.injEq] at h
            rw [← h.2.1]
            exact ⟨rfl, rfl⟩
      · rw [if_neg hpos] at h
        unfold saveClientPaymentCreate at h
        by_cases hdup : (payments.any
            (fun p => p.invoiceNo = genInvoiceNo ts rand)) = true
        · rw [if_pos hdup] at h
          exact absurd h (by simp)
        · rw [if_neg hdup] at h
          simp only [Except.ok.injEq, Prod.mk.injEq] at h
          rw [← h.2.1]
          exact ⟨rfl, rfl⟩
  · intro input today ts rand payments h1 h2 h3 h4 h5 h6 h7
    unfold saveClientPayment
    rw [if_neg h1]
    have hguard : (input.stage = "" || qFalsy input.amount ||
        qFalsy input.totalPayment) = false := by
      simp [h2, h3, h4]
    rw [hguard]
    simp only [Bool.false_eq_true, if_false, h5, h6]
    unfold saveClientPaymentCreate
    have : jsOr none (genInvoiceNo ts rand) = genInvoiceNo ts rand := rfl
    rw [this, if_pos h7]
  · intro ts rand h
    have hlen := congrArg String.length h
    unfold genInvoiceNo at hlen
    simp only [String.length_append] at hlen
    have h4 : ("INV-" : String).length = 4 := rfl
    have h0 : ("" : String).length = 0 := rfl
    rw [h4, h0] at hlen
    omega

/-- Witness for C10: the hypotheses are satisfiable — a concrete create with
omitted invoice number collides with an existing row that already carries
the generated `INV-5-abc` value and is rejected naming it. -/
theorem C10_saveClientPayment_defaults_witness :
    saveClientPayment ⟨none, 1, some 100, "INITIAL", some 50, none, none, none⟩
        "2026-10-11" 5 "abc"
        [⟨1, 2, 100, "INITIAL", 50, "2026-01-01", genInvoiceNo 5 "abc", none⟩]
      = .error ("Invoice number \"" ++ genInvoiceNo 5 "abc" ++
          "\" already exists. Please use a different invoice number.") :=
  C10_saveClientPayment_defaults.2.1 _ _ _ _ _
    (by norm_num) (by simp) (by simp [qFalsy]) (by simp [qFalsy]) rfl rfl (by simp)

/- ==============================
   Product-payment ledger and satellite tables
   (clientProductPayments.model.ts) — claims C3, C4, C8
============================== -/

/-- `simCard` table row. -/
structure SimCardRow where
  id : Nat
  activatedStatus : Bool
  simcardPlan : Option String
  simCardGivingDate : Option String
  simActivationDate : Option String
  remarks : Option String
deriving DecidableEq, Repr

/-- `airTicket` table row. -/
structure AirTicketRow where
  id : Nat
  isTicketBooked : Bool
  amount : ℚ
  airTicketNumber : String
  ticketDate : String
  remarks : Option String
deriving DecidableEq, Repr

/-- `ielts` table row. -/
structure IeltsRow where
  id : Nat
  enrolledStatus : Bool
  amount : ℚ
  enrollmentDate : Option String
  remarks : Option String
deriving DecidableEq, Repr

/-- `loan` table row. -/
structure LoanRow where
  id : Nat
  amount : ℚ
  disbursmentDate : String
  remarks : Option String
deriving DecidableEq, Repr

/-- `forexCard` table row. -/
structure ForexCardRow where
  id : Nat
  forexCardStatus : Option String
  cardDate : Option String
  remarks : Option String
deriving DecidableEq, Repr

/-- `forexFees` table row. -/
structure ForexFeesRow where
  id : Nat
  side : String
  amount : ℚ
  feeDate : Option String
  remarks : Option String
deriving DecidableEq, Repr

/-- `tutionFees` table row (status tracker, no amount column). -/
structure TutionFeesRow where
  id : Nat
  tutionFeesStatus : String
  feeDate : Option String
  remarks : Option String
deriving DecidableEq, Repr

/-- `insurance` table row. -/
structure InsuranceRow where
  id : Nat
  amount : ℚ
  policyNumber : Option String
  insuranceDate : String
  remarks : Option String
deriving DecidableEq, Repr

/-- `beaconAccount` table row. -/
structure BeaconAccountRow where
  id : Nat
  amount : ℚ
  openingDate : Option String
  fundingDate : Option String
  remarks : Option String
deriving DecidableEq, Repr

/-- `creditCard` table row. -/
structure CreditCardRow where
  id : Nat
  amount : ℚ
  cardDate : Option String
  remarks : Option String
deriving DecidableEq, Repr

/-- `newSell` table row. -/
structure NewSellRow where
  id : Nat
  serviceName : String
  serviceInformation : Option String
  amount : ℚ
  sellDate : String
  invoiceNo : Option String
  remarks : Option String
deriving DecidableEq, Repr

/-- `visaExtension` table row. -/
structure VisaExtensionRow where
  id : Nat
  type : String
  amount : ℚ
  extensionDate : String
  invoiceNo : Option String
  remarks : Option String
deriving DecidableEq, Repr

/-- All satellite (entity-kind) tables. -/
structure EntityDB where
  simCard : List SimCardRow := []
  airTicket : List AirTicketRow := []
  ielts : List IeltsRow := []
  loan : List LoanRow := []
  forexCard : List ForexCardRow := []
  forexFees : List ForexFeesRow := []
  tutionFees : List TutionFeesRow := []
  insurance : List InsuranceRow := []
  beaconAccount : List BeaconAccountRow := []
  creditCard : List CreditCardRow := []
  newSell : List NewSellRow := []
  visaExtension : List VisaExtensionRow := []
deriving DecidableEq, Repr

/-- The caller-supplied `entityData` payload: a JS object whose fields are
all optional (the per-kind interfaces of clientProductPayments.model.ts
lines 147–232, merged as the untyped runtime value is). -/
structure EntityData where
  activatedStatus : Option Bool := none
  simcardPlan : Option String := none
  simCardGivingDate : Option String := none
  simActivationDate : Option String := none
  isTicketBooked : Option Bool := none
  amount : Option ℚ := none
  airTicketNumber : Option String := none
  ticketDate : Option String := none
  enrolledStatus : Option Bool := none
  enrollmentDate : Option String := none
  disbursmentDate : Option String := none
  forexCardStatus : Option String := none
  cardDate : Option String := none
  side : Option String := none
  feeDate : Option String := none
  tutionFeesStatus : Option String := none
  policyNumber : Option String := none
  insuranceDate : Option String := none
  fundingAmount : Option ℚ := none
  accountDate : Option String := none
  fundingDate : Option String := none
  openingDate : Option String := none
  serviceName : Option String := none
  serviceInformation : Option String := none
  sellDate : Option String := none
  invoiceNo : Option String := none
  type : Option String := none
  extensionDate : Option String := none
  remarks : Option String := none
deriving DecidableEq, Repr

/-- The synthetic ticket number `TKT-<Date.now()>-<random suffix>`
(clientProductPayments.model.ts line 291). -/
def genTicketNumber (timestamp : Nat) (rand : String) : String :=
  "TKT-" ++ toString timestamp ++ "-" ++ rand

/-- The clock/random values the entity constructors default from. -/
structure EntityGen where
  today : String
  ticketTs : Nat
  ticketRand : String
deriving DecidableEq, Repr

/-- Reading a required numeric field: in JS, `data.field.toString()` on an
absent field crashes the request (a TypeError), modelled as an error. -/
def requireNum (o : Option ℚ) (fieldName : String) : Except String ℚ :=
  match o with
  | some q => .ok q
  | none => .error ("TypeError: cannot read property of undefined: " ++ fieldName)

/-- `createEntityRecord` (clientProductPayments.model.ts lines 260–492):
per-kind constructor; validates kind-specific fields, inserts into the
matching satellite table and returns the new id. Only the air-ticket case
performs a pre-insert uniqueness check; the visa-extension and new-sell
cases insert without checking their invoice numbers. -/
def createEntityRecord (entityType : String) (entityData : EntityData)
    (gen : EntityGen) (edb : EntityDB) (productAmount : ℚ := 0) :
    Except String (Nat × EntityDB) :=
  match entityType with
  | "simCard_id" =>
    let id := freshId (edb.simCard.map (·.id))
    let record : SimCardRow :=
      ⟨id, entityData.activatedStatus.getD false, entityData.simcardPlan,
        entityData.simCardGivingDate, entityData.simActivationDate,
        entityData.remarks⟩
    .ok (id, { edb with simCard := edb.simCard ++ [record] })
  | "airTicket_id" =>
    let finalAirTicketNumber :=
      jsOr entityData.airTicketNumber (genTicketNumber gen.ticketTs gen.ticketRand)
    let finalTicketDate := jsOr entityData.ticketDate gen.today
    if edb.airTicket.any (fun r => r.airTicketNumber = finalAirTicketNumber) then
      .error ("Air ticket number \"" ++ finalAirTicketNumber ++
        "\" already exists. Please use a different ticket number.")
    else
      let id := freshId (edb.airTicket.map (·.id))
      let amount := match entityData.amount with
        | some q => if q = 0 then productAmount else q
        | none => productAmount
      let record : AirTicketRow :=
        ⟨id, entityData.isTicketBooked.getD false, amount, finalAirTicketNumber,
          finalTicketDate, entityData.remarks⟩
      .ok (id, { edb with airTicket := edb.airTicket ++ [record] })
  | "ielts_id" => do
    let amount ← requireNum entityData.amount "amount"
    let id := freshId (edb.ielts.map (·.id))
    let record : IeltsRow :=
      ⟨id, entityData.enrolledStatus.getD false, amount,
        entityData.enrollmentDate, entityData.remarks⟩
    pure (id, { edb with ielts := edb.ielts ++ [record] })
  | "loan_id" => do
    let finalDisbursmentDate := jsOr entityData.disbursmentDate gen.today
    let amount ← requireNum entityData.amount "amount"
    let id := freshId (edb.loan.map (·.id))
    let record : LoanRow := ⟨id, amount, finalDisbursmentDate, entityData.remarks⟩
    pure (id, { edb with loan := edb.loan ++ [record] })
  | "forexCard_id" =>
    let id := freshId (edb.forexCard.map (·.id))
    let record : ForexCardRow :=
      ⟨id, entityData.forexCardStatus, entityData.cardDate, entityData.remarks⟩
    .ok (id, { edb with forexCard := edb.forexCard ++ [record] })
  | "forexFees_id" => do
    let sideOk := match entityData.side with
      | some s => s = "PI" || s = "TP"
      | none => false
    if !sideOk then
      throw "side is required and must be \x27PI\x27 or \x27TP\x27"
    let amount ← requireNum entityData.amount "amount"
    let id := freshId (edb.forexFees.map (·.id))
    let record : ForexFeesRow :=
      ⟨id, entityData.side.getD "", amount, entityData.feeDate, entityData.remarks⟩
    pure (id, { edb with forexFees := edb.forexFees ++ [record] })
  | "tutionFees_id" => do
    let statusOk := match entityData.tutionFeesStatus with
      | some s => s = "paid" || s = "pending"
      | none => false
    if !statusOk then
      throw "tutionFeesStatus is required and must be \x27paid\x27 or \x27pending\x27"
    let id := freshId (edb.tutionFees.map (·.id))
    let record : TutionFeesRow :=
      ⟨id, entityData.tutionFeesStatus.getD "", entityData.feeDate,
        entityData.remarks⟩
    pure (id, { edb with tutionFees := edb.tutionFees ++ [record] })
  | "insurance_id" => do
    let finalInsuranceDate := jsOr entityData.insuranceDate gen.today
    let amount ← requireNum entityData.amount "amount"
    let id := freshId (edb.insurance.map (·.id))
    let record : InsuranceRow :=
      ⟨id, amount, entityData.policyNumber, finalInsuranceDate, entityData.remarks⟩
    pure (id, { edb with insurance := edb.insurance ++ [record] })
  | "beaconAccount_id" => do
    -- `data.amount ?? data.fundingAmount` (nullish coalescing, not falsy)
    let amountValue := match entityData.amount with
      | some q => some q
      | none => entityData.fundingAmount
    match amountValue with
    | none => throw "amount or fundingAmount is required for beacon account"
    | some amount =>
      let id := freshId (edb.beaconAccount.map (·.id))
      let record : BeaconAccountRow :=
        ⟨id, amount, entityData.openingDate, entityData.fundingDate,
          entityData.remarks⟩
      pure (id, { edb with beaconAccount := edb.beaconAccount ++ [record] })
  | "creditCard_id" => do
    let amount ← requireNum entityData.amount "amount"
    let id := freshId (edb.creditCard.map (·.id))
    let record : CreditCardRow :=
      ⟨id, amount, entityData.cardDate, entityData.remarks⟩
    pure (id, { edb with creditCard := edb.creditCard ++ [record] })
  | "visaextension_id" => do
    let typeOk := match entityData.type with
      | some s => s ≠ ""
      | none => false
    if !typeOk then
      throw "type is required for visa extension"
    let finalExtensionDate := jsOr entityData.extensionDate gen.today
    let amount ← requireNum entityData.amount "amount"
    let id := freshId (edb.visaExtension.map (·.id))
    let record : VisaExtensionRow :=
      ⟨id, entityData.type.getD "", amount, finalExtensionDate,
        entityData.invoiceNo, entityData.remarks⟩
    pure (id, { edb with visaExtension := edb.visaExtension ++ [record] })
  | "newSell_id" => do
    let nameOk := match entityData.serviceName with
      | some s => s ≠ ""
      | none => false
    if !nameOk then
      throw "serviceName is required for new sell"
    let finalSellDate := jsOr entityData.sellDate gen.today
    let amount ← requireNum entityData.amount "amount"
    let id := freshId (edb.newSell.map (·.id))
    let record : NewSellRow :=
      ⟨id, entityData.serviceName.getD "", entityData.serviceInformation,
        amount, finalSellDate, entityData.invoiceNo, entityData.remarks⟩
    pure (id, { edb with newSell := edb.newSell ++ [record] })
  | _ => .error ("Unsupported entity type: " ++ entityType)

/-- `productToEntityTypeMap` (clientProductPayments.model.ts lines 100–127):
the compiled-in Product Type → Entity Kind map; an unknown product name
yields `none` (the JS lookup yields `undefined`). -/
def productToEntityTypeMap (productName : String) : Option String :=
  match productName with
  | "SIM_CARD_ACTIVATION" => some "simCard_id"
  | "AIR_TICKET" => some "airTicket_id"
  | "IELTS_ENROLLMENT" => some "ielts_id"
  | "LOAN_DETAILS" => some "loan_id"
  | "FOREX_CARD" => some "forexCard_id"
  | "FOREX_FEES" => some "forexFees_id"
  | "TUTION_FEES" => some "tutionFees_id"
  | "INSURANCE" => some "insurance_id"
  | "BEACON_ACCOUNT" => some "beaconAccount_id"
  | "CREDIT_CARD" => some "creditCard_id"
  | "OTHER_NEW_SELL" => some "newSell_id"
  | "VISA_EXTENSION" => some "visaextension_id"
  | "ALL_FINANCE_EMPLOYEMENT" => some "master_only"
  | "INDIAN_SIDE_EMPLOYEMENT" => some "master_only"
  | "NOC_LEVEL_JOB_ARRANGEMENT" => some "master_only"
  | "LAWYER_REFUSAL_CHARGE" => some "master_only"
  | "ONSHORE_PART_TIME_EMPLOYEMENT" => some "master_only"
  | "TRV_WORK_PERMIT_EXT_STUDY_PERMIT_EXTENSION" => some "master_only"
  | "MARRIAGE_PHOTO_FOR_COURT_MARRIAGE" => some "master_only"
  | "MARRIAGE_PHOTO_CERTIFICATE" => some "master_only"
  | "RECENTE_MARRIAGE_RELATIONSHIP_AFFIDAVIT" => some "master_only"
  | "JUDICAL_REVIEW_CHARGE" => some "master_only"
  | "SPONSOR_CHARGES" => some "master_only"
  | "FINANCE_EMPLOYEMENT" => some "master_only"
  | _ => none

/-- A `clientProductPayments` ledger row. -/
structure ProductPaymentRow where
  productPaymentId : Nat
  clientId : Nat
  productName : String
  entityType : String
  entityId : Option Nat
  amount : Option ℚ
  paymentDate : Option String
  invoiceNo : Option String
  remarks : Option String
deriving DecidableEq, Repr

/-- Ledger plus satellite tables. -/
structure ProductDB where
  payments : List ProductPaymentRow := []
  entities : EntityDB := {}
deriving DecidableEq, Repr

/-- `SaveClientProductPaymentInput` (lines 234–257). -/
structure SaveClientProductPaymentInput where
  productPaymentId : Option Nat := none
  clientId : Nat
  productName : String
  invoiceNo : Option String := none
  amount : Option ℚ := none
  paymentDate : Option String := none
  remarks : Option String := none
  entityData : Option EntityData := none
deriving DecidableEq, Repr

/-- The satellite partial update of the update path (lines 552–598):
`db.update(table).set(cleanEntityData)` applies exactly the supplied fields
to the row with the stored `entityId`. The stripping of ledger-only keys
(`id`, `productPaymentId`, `productName`, `paymentDate`, `clientId`,
`entityId`, `entityType`) is implicit here: `EntityData` carries none of
them. Dispatches on the stored entity type. -/
def applyEntityUpdate (entityType : String) (d : EntityData) (eid : Nat)
    (edb : EntityDB) : EntityDB :=
  match entityType with
  | "simCard_id" =>
    { edb with simCard := edb.simCard.map (fun r =>
        if r.id = eid then
          { r with
            activatedStatus := d.activatedStatus.getD r.activatedStatus,
            simcardPlan := if d.simcardPlan.isSome then d.simcardPlan else r.simcardPlan,
            simCardGivingDate :=
              if d.simCardGivingDate.isSome then d.simCardGivingDate else r.simCardGivingDate,
            simActivationDate :=
              if d.simActivationDate.isSome then d.simActivationDate else r.simActivationDate,
            remarks := if d.remarks.isSome then d.remarks else r.remarks }
        else r) }
  | "airTicket_id" =>
    { edb with airTicket := edb.airTicket.map (fun r =>
        if r.id = eid then
          { r with
            isTicketBooked := d.isTicketBooked.getD r.isTicketBooked,
            amount := d.amount.getD r.amount,
            airTicketNumber := d.airTicketNumber.getD r.airTicketNumber,
            ticketDate := d.ticketDate.getD r.ticketDate,
            remarks := if d.remarks.isSome then d.remarks else r.remarks }
        else r) }
  | "ielts_id" =>
    { edb with ielts := edb.ielts.map (fun r =>
        if r.id = eid then
          { r with
            enrolledStatus := d.enrolledStatus.getD r.enrolledStatus,
            amount := d.amount.getD r.amount,
            enrollmentDate := if d.enrollmentDate.isSome then d.enrollmentDate else r.enrollmentDate,
            remarks := if d.remarks.isSome then d.remarks else r.remarks }
        else r) }
  | "loan_id" =>
    { edb with loan := edb.loan.map (fun r =>
        if r.id = eid then
          { r with
            amount := d.amount.getD r.amount,
            disbursmentDate := d.disbursmentDate.getD r.disbursmentDate,
            remarks := if d.remarks.isSome then d.remarks else r.remarks }
        else r) }
  | "forexCard_id" =>
    { edb with forexCard := edb.forexCard.map (fun r =>
        if r.id = eid then
          { r with
            forexCardStatus := if d.forexCardStatus.isSome then d.forexCardStatus else r.forexCardStatus,
            cardDate := if d.cardDate.isSome then d.cardDate else r.cardDate,
            remarks := if d.remarks.isSome then d.remarks else r.remarks }
        else r) }
  | "forexFees_id" =>
    { edb with forexFees := edb.forexFees.map (fun r =>
        if r.id = eid then
          { r with
            side := d.side.getD r.side,
            amount := d.amount.getD r.amount,
            feeDate := if d.feeDate.isSome then d.feeDate else r.feeDate,
            remarks := if d.remarks.isSome then d.remarks else r.remarks }
        else r) }
  | "tutionFees_id" =>
    { edb with tutionFees := edb.tutionFees.map (fun r =>
        if r.id = eid then
          { r with
            tutionFeesStatus := d.tutionFeesStatus.getD r.tutionFeesStatus,
            feeDate := if d.feeDate.isSome then d.feeDate else r.feeDate,
            remarks := if d.remarks.isSome then d.remarks else r.remarks }
        else r) }
  | "insurance_id" =>
    { edb with insurance := edb.insurance.map (fun r =>
        if r.id = eid then
          { r with
            amount := d.amount.getD r.amount,
            policyNumber := if d.policyNumber.isSome then d.policyNumber else r.policyNumber,
            insuranceDate := d.insuranceDate.getD r.insuranceDate,
            remarks := if d.remarks.isSome then d.remarks else r.remarks }
        else r) }
  | "beaconAccount_id" =>
    { edb with beaconAccount := edb.beaconAccount.map (fun r =>
        if r.id = eid then
          { r with
            amount := d.amount.getD r.amount,
            openingDate := if d.openingDate.isSome then d.openingDate else r.openingDate,
            fundingDate := if d.fundingDate.isSome then d.fundingDate else r.fundingDate,
            remarks := if d.remarks.isSome then d.remarks else r.remarks }
        else r) }
  | "creditCard_id" =>
    { edb with creditCard := edb.creditCard.map (fun r =>
        if r.id = eid then
          { r with
            amount := d.amount.getD r.amount,
            cardDate := if d.cardDate.isSome then d.cardDate else r.cardDate,
            remarks := if d.remarks.isSome then d.remarks else r.remarks }
        else r) }
  | "newSell_id" =>
    { edb with newSell := edb.newSell.map (fun r =>
        if r.id = eid then
          { r with
            serviceName := d.serviceName.getD r.serviceName,
            serviceInformation :=
              if d.serviceInformation.isSome then d.serviceInformation else r.serviceInformation,
            amount := d.amount.getD r.amount,
            sellDate := d.sellDate.getD r.sellDate,
            invoiceNo := if d.invoiceNo.isSome then d.invoiceNo else r.invoiceNo,
            remarks := if d.remarks.isSome then d.remarks else r.remarks }
        else r) }
  | "visaextension_id" =>
    { edb with visaExtension := edb.visaExtension.map (fun r =>
        if r.id = eid then
          { r with
            type := d.type.getD r.type,
            amount := d.amount.getD r.amount,
            extensionDate := d.extensionDate.getD r.extensionDate,
            invoiceNo := if d.invoiceNo.isSome then d.invoiceNo else r.invoiceNo,
            remarks := if d.remarks.isSome then d.remarks else r.remarks }
        else r) }
  | _ => edb

/-- JS truthiness of an optional string. -/
def sTruthy (o : Option String) : Bool :=
  match o with
  | some s => s ≠ ""
  | none => false

/-- The create branch of `saveClientProductPayment` (lines 628–670): for
entity-backed kinds `entityData` is required and the satellite insert runs
first; the ledger row then stores the map-derived `entityType` and, for
`master_only` products only, the caller's amount/date/invoice/remarks. -/
def saveProductCreate (data : SaveClientProductPaymentInput) (entityType : String)
    (amountValue : Option ℚ) (gen : EntityGen) (db : ProductDB) :
    Except String (String × ProductPaymentRow × ProductDB) :=
  let insertLedger := fun (entityId : Option Nat) (edb : EntityDB) =>
    let record : ProductPaymentRow :=
      { productPaymentId := freshId (db.payments.map (·.productPaymentId)),
        clientId := data.clientId,
        productName := data.productName,
        entityType := entityType,
        entityId := entityId,
        amount := if entityType = "master_only" then amountValue else none,
        paymentDate := if entityType = "master_only" then data.paymentDate else none,
        invoiceNo := if entityType = "master_only" then data.invoiceNo else none,
        remarks := if entityType = "master_only" then data.remarks else none }
    Except.ok ("CREATED", record,
      ({ payments := db.payments ++ [record], entities := edb } : ProductDB))
  if entityType ≠ "master_only" then
    match data.entityData with
    | none => .error "entityData required"
    | some ed =>
      match createEntityRecord entityType ed gen db.entities with
      | .error e => .error e
      | .ok (eid, edb') => insertLedger (some eid) edb'
  else
    insertLedger none db.entities

/-- The update branch of `saveClientProductPayment` (lines 541–626):
satellite partial update (with the air-ticket duplicate re-check when the
ticket number changes), then the ledger row's own fields are rewritten —
`entityType`, `productName`, `clientId` and `entityId` are never touched. -/
def saveProductUpdate (pid : Nat) (data : SaveClientProductPaymentInput)
    (entityType : String) (amountValue : Option ℚ) (db : ProductDB) :
    Except String (String × ProductPaymentRow × ProductDB) :=
  match db.payments.find? (fun p => p.productPaymentId = pid) with
  | none => .error "Product payment record not found"
  | some existing =>
    let entityStep : Except String EntityDB :=
      match data.entityData with
      | some ed =>
        if entityType ≠ "master_only" then
          let dupCheck : Except String Unit :=
            if entityType = "airTicket_id" && sTruthy ed.airTicketNumber then
              let currentAirTicket : Option AirTicketRow :=
                match existing.entityId with
                | some eid => db.entities.airTicket.find? (fun r => r.id = eid)
                | none => none
              match currentAirTicket with
              | some cur =>
                if ed.airTicketNumber.getD "" ≠ cur.airTicketNumber then
                  if db.entities.airTicket.any (fun r =>
                      r.airTicketNumber = ed.airTicketNumber.getD "" &&
                        some r.id ≠ existing.entityId) then
                    .error ("Air ticket number \"" ++ ed.airTicketNumber.getD "" ++
                      "\" already exists. Please use a different ticket number.")
                  else .ok ()
                else .ok ()
              | none => .ok ()
            else .ok ()
          match dupCheck with
          | .error e => .error e
          | .ok _ =>
            .ok (applyEntityUpdate entityType ed (existing.entityId.getD 0) db.entities)
        else .ok db.entities
      | none => .ok db.entities
    match entityStep with
    | .error e => .error e
    | .ok edb' =>
      let updated : ProductPaymentRow :=
        { existing with
          amount := if entityType = "master_only" then amountValue else none,
          paymentDate :=
            if entityType = "master_only" then
              match data.paymentDate with
              | some pd => some pd
              | none => existing.paymentDate
            else none,
          invoiceNo :=
            if entityType = "master_only" then
              match data.invoiceNo with
              | some i => some i
              | none => existing.invoiceNo
            else none,
          remarks :=
            if entityType = "master_only" then
              match data.remarks with
              | some r => some r
              | none => existing.remarks
            else none }
      .ok ("UPDATED", updated,
        ({ payments := db.payments.map (fun p =>
            if p.productPaymentId = pid then updated else p),
           entities := edb' } : ProductDB))

/-- `saveClientProductPayment` (clientProductPayments.model.ts lines
495–670). -/
def saveClientProductPayment (data : SaveClientProductPaymentInput)
    (gen : EntityGen) (db : ProductDB) :
    Except String (String × ProductPaymentRow × ProductDB) :=
  if data.clientId = 0 then .error "Valid clientId is required"
  else if data.productName = "" then .error "productName is required"
  else
    match productToEntityTypeMap data.productName with
    | none => .error "Invalid productName"
    | some entityType =>
      let amountCheck : Except String (Option ℚ) :=
        if entityType = "master_only" then
          match data.amount with
          | none => .error "amount is required for master_only products"
          | some a => if a ≤ 0 then .error "Invalid amount" else .ok (some a)
        else .ok none
      match amountCheck with
      | .error e => .error e
      | .ok amountValue =>
        match data.productPaymentId with
        | some pid =>
          if 0 < pid then saveProductUpdate pid data entityType amountValue db
          else saveProductCreate data entityType amountValue gen db
        | none => saveProductCreate data entityType amountValue gen db

/-- A satellite record attached to a ledger row by the read path. -/
inductive ResolvedEntity
  | simCard (r : SimCardRow)
  | airTicket (r : AirTicketRow)
  | ielts (r : IeltsRow)
  | loan (r : LoanRow)
  | forexCard (r : ForexCardRow)
  | forexFees (r : ForexFeesRow)
  | tutionFees (r : TutionFeesRow)
  | insurance (r : InsuranceRow)
  | beaconAccount (r : BeaconAccountRow)
  | creditCard (r : CreditCardRow)
  | newSell (r : NewSellRow)
  | visaExtension (r : VisaExtensionRow)
deriving DecidableEq, Repr

/-- The per-row result of the batch rehydration (lines 682–793): the source
groups ids by entity type, issues one `fetchEntities` per type building an
id→row map from exactly those ids, and then looks each row's `entityId` up
in its type's map; pointwise that equals a direct `find?` in that type's
table, which is what this function performs. An unknown type or a missing
row degrades to `none`. -/
def lookupEntity (entityType : String) (eid : Nat) (edb : EntityDB) :
    Option ResolvedEntity :=
  match entityType with
  | "simCard_id" => (edb.simCard.find? (fun r => r.id = eid)).map .simCard
  | "airTicket_id" => (edb.airTicket.find? (fun r => r.id = eid)).map .airTicket
  | "ielts_id" => (edb.ielts.find? (fun r => r.id = eid)).map .ielts
  | "loan_id" => (edb.loan.find? (fun r => r.id = eid)).map .loan
  | "forexCard_id" => (edb.forexCard.find? (fun r => r.id = eid)).map .forexCard
  | "forexFees_id" => (edb.forexFees.find? (fun r => r.id = eid)).map .forexFees
  | "tutionFees_id" => (edb.tutionFees.find? (fun r => r.id = eid)).map .tutionFees
  | "insurance_id" => (edb.insurance.find? (fun r => r.id = eid)).map .insurance
  | "beaconAccount_id" =>
    (edb.beaconAccount.find? (fun r => r.id = eid)).map .beaconAccount
  | "creditCard_id" => (edb.creditCard.find? (fun r => r.id = eid)).map .creditCard
  | "newSell_id" => (edb.newSell.find? (fun r => r.id = eid)).map .newSell
  | "visaextension_id" =>
    (edb.visaExtension.find? (fun r => r.id = eid)).map .visaExtension
  | _ => none

/-- `getProductPaymentsByClientId` (lines 673–794): the client's ledger rows,
each paired with its resolved satellite record (`null` for `master_only`
rows, missing ids, or failed lookups). -/
def getProductPaymentsByClientId (clientId : Nat) (db : ProductDB) :
    List (ProductPaymentRow × Option ResolvedEntity) :=
  (db.payments.filter (fun p => p.clientId = clientId)).map (fun p =>
    if p.entityType = "master_only" then (p, none)
    else
      match p.entityId with
      | some eid => (p, lookupEntity p.entityType eid db.entities)
      | none => (p, none))

/-- The invariant of C3: every ledger row's `entityType` is the value the
compiled-in map dictates for its `productName`. -/
def EntityTypeInvariant (db : ProductDB) : Prop :=
  ∀ r ∈ db.payments, productToEntityTypeMap r.productName = some r.entityType

/-- The create branch preserves the entity-type invariant and stamps the
new row with the map-derived entity type. -/
theorem saveProductCreate_inv (data : SaveClientProductPaymentInput)
    (entityType : String) (amountValue : Option ℚ) (gen : EntityGen)
    (db : ProductDB) (action : String) (record : ProductPaymentRow)
    (db' : ProductDB)
    (hmap : productToEntityTypeMap data.productName = some entityType)
    (hinv : EntityTypeInvariant db)
    (h : saveProductCreate data entityType amountValue gen db
        = .ok (action, record, db')) :
    EntityTypeInvariant db' ∧
      productToEntityTypeMap record.productName = some record.entityType := by
  unfold saveProductCreate at h
  by_cases het : entityType = "master_only"
  · rw [if_neg (by simp [het])] at h
    simp only [Except.ok.injEq, Prod.mk.injEq] at h
    obtain ⟨-, hrec, hdb⟩ := h
    subst hrec
    subst hdb
    refine ⟨?_, hmap⟩
    intro r hr
    simp only [List.mem_append, List.mem_singleton] at hr
    rcases hr with hr | hr
    · exact hinv r hr
    · subst hr
      exact hmap
  · rw [if_pos (by simp [het])] at h
    rcases hed : data.entityData with _ | ed <;> rw [hed] at h <;>
      simp only [] at h
    · exact absurd h (by simp)
    · rcases hcr : createEntityRecord entityType ed gen db.entities with e | p <;>
        rw [hcr] at h <;> simp only [] at h
      · exact absurd h (by simp)
      · simp only [Except.ok.injEq, Prod.mk.injEq] at h
        obtain ⟨-, hrec, hdb⟩ := h
        subst hrec
        subst hdb
        refine ⟨?_, hmap⟩
        intro r hr
        simp only [List.mem_append, List.mem_singleton] at hr
        rcases hr with hr | hr
        · exact hinv r hr
        · subst hr
          exact hmap

/-- The update branch never touches `productName` or `entityType`, so it
preserves the invariant and the returned row still satisfies it. -/
theorem saveProductUpdate_inv (pid : Nat) (data : SaveClientProductPaymentInput)
    (entityType : String) (amountValue : Option ℚ) (db : ProductDB)
    (action : String) (record : ProductPaymentRow) (db' : ProductDB)
    (hinv : EntityTypeInvariant db)
    (h : saveProductUpdate pid data entityType amountValue db
        = .ok (action, record, db')) :
    EntityTypeInvariant db' ∧
      productToEntityTypeMap record.productName = some record.entityType := by
  unfold saveProductUpdate at h
  rcases hfind : db.payments.find? (fun p => p.productPaymentId = pid)
      with _ | existing <;> rw [hfind] at h <;> simp only [] at h
  · exact absurd h (by simp)
  · have hex : existing ∈ db.payments := List.mem_of_find?_eq_some hfind
    have hexinv := hinv existing hex
    rcases hstep : (match data.entityData with
      | some ed =>
        if entityType ≠ "master_only" then
          match
            (if entityType = "airTicket_id" && sTruthy ed.airTicketNumber then
              match (match existing.entityId with
                | some eid => db.entities.airTicket.find? (fun r => r.id = eid)
                | none => none : Option AirTicketRow) with
              | some cur =>
                if ed.airTicketNumber.getD "" ≠ cur.airTicketNumber then
                  if db.entities.airTicket.any (fun r =>
                      r.airTicketNumber = ed.airTicketNumber.getD "" &&
                        some r.id ≠ existing.entityId) then
                    Except.error ("Air ticket number \"" ++ ed.airTicketNumber.getD "" ++
                      "\" already exists. Please use a different ticket number.")
                  else Except.ok ()
                else Except.ok ()
              | none => Except.ok ()
            else Except.ok () : Except String Unit) with
          | .error e => Except.error e
          | .ok _ =>
            Except.ok (applyEntityUpdate entityType ed (existing.entityId.getD 0) db.entities)
        else Except.ok db.entities
      | none => Except.ok db.entities : Except String EntityDB) with e | edb' <;>
      rw [hstep] at h <;> simp only [] at h
    · exact absurd h (by simp)
    · simp only [Except.ok.injEq, Prod.mk.injEq] at h
      obtain ⟨-, hrec, hdb⟩ := h
      subst hdb
      constructor
      · intro r hr
        simp only [List.mem_map] at hr
        obtain ⟨p, hp, hpr⟩ := hr
        by_cases hpp : p.productPaymentId = pid
        · rw [if_pos hpp] at hpr
          rw [← hpr]
          exact hexinv
        · rw [if_neg hpp] at hpr
          rw [← hpr]
          exact hinv p hp
      · rw [← hrec]
        exact hexinv

/-- C3: every ledger row written by `saveClientProductPayment` (created or
updated) carries `entityType = productToEntityTypeMap[productName]` — the
payload cannot set it to anything else — and a `productName` outside the
map is rejected with an error, so nothing is written. -/
theorem C3_entityType_dictated_by_map :
    (∀ (data : SaveClientProductPaymentInput) (gen : EntityGen) (db : ProductDB)
        (action : String) (record : ProductPaymentRow) (db' : ProductDB),
      EntityTypeInvariant db →
      saveClientProductPayment data gen db = .ok (action, record, db') →
      EntityTypeInvariant db' ∧
        productToEntityTypeMap record.productName = some record.entityType) ∧
    (∀ (data : SaveClientProductPaymentInput) (gen : EntityGen) (db : ProductDB),
      productToEntityTypeMap data.productName = none →
      ∃ e, saveClientProductPayment data gen db = Except.error e) := by
  constructor
  · intro data gen db action record db' hinv h
    unfold saveClientProductPayment at h
    by_cases h1 : data.clientId = 0
    · rw [if_pos h1] at h
      exact absurd h (by simp)
    rw [if_neg h1] at h
    by_cases h2 : data.productName = ""
    · rw [if_pos h2] at h
      exact absurd h (by simp)
    rw [if_neg h2] at h
    rcases hmap : productToEntityTypeMap data.productName with _ | et <;>
      rw [hmap] at h <;> simp only [] at h
    · exact absurd h (by simp)
    · rcases hcheck : (if et = "master_only" then
          match data.amount with
          | none => Except.error "amount is required for master_only products"
          | some a => if a ≤ 0 then Except.error "Invalid amount" else Except.ok (some a)
        else Except.ok (none : Option ℚ)) with e | amountValue <;>
        rw [hcheck] at h <;> simp only [] at h
      · exact absurd h (by simp)
      · rcases hpid : data.productPaymentId with _ | pid <;>
          rw [hpid] at h <;> simp only [] at h
        · exact saveProductCreate_inv data et amountValue gen db action record db'
            hmap hinv h
        · by_cases hpos : 0 < pid
          · rw [if_pos hpos] at h
            exact saveProductUpdate_inv pid data et amountValue db action record db'
              hinv h
          · rw [if_neg hpos] at h
            exact saveProductCreate_inv data et amountValue gen db action record db'
              hmap hinv h
  · intro data gen db hmap
    unfold saveClientProductPayment
    by_cases h1 : data.clientId = 0
    · exact ⟨"Valid clientId is required", by rw [if_pos h1]⟩
    by_cases h2 : data.productName = ""
    · exact ⟨"productName is required", by rw [if_neg h1, if_pos h2]⟩
    refine ⟨"Invalid productName", ?_⟩
    rw [if_neg h1, if_neg h2, hmap]

/-- Witness for C3: the hypotheses are satisfiable — saving a FOREX_FEES
payment into an empty (trivially invariant) database yields a database that
still satisfies the invariant, with the new row stamped `forexFees_id`. -/
theorem C3_entityType_dictated_by_map_witness :
    EntityTypeInvariant
      ({ payments :=
          [{ productPaymentId := 1, clientId := 1, productName := "FOREX_FEES",
             entityType := "forexFees_id", entityId := some 1, amount := none,
             paymentDate := none, invoiceNo := none, remarks := none }],
         entities := { forexFees := [⟨1, "PI", 500, none, none⟩] } } : ProductDB) ∧
    productToEntityTypeMap "FOREX_FEES" = some "forexFees_id" :=
  C3_entityType_dictated_by_map.1
    { productPaymentId := none, clientId := 1, productName := "FOREX_FEES",
      invoiceNo := none, amount := none, paymentDate := none, remarks := none,
      entityData := some { side := some "PI", amount := some 500 } }
    ⟨"2026-10-11", 5, "abc"⟩ {} "CREATED" _ _
    (by intro r hr; simp at hr) rfl

/-- The air-ticket constructor rejects a duplicate ticket number before
inserting, naming the conflicting value. -/
theorem createEntityRecord_airTicket_dup (ed : EntityData) (gen : EntityGen)
    (edb : EntityDB) (t : String) (ht : ed.airTicketNumber = some t)
    (hne : t ≠ "")
    (hdup : (edb.airTicket.any (fun r => r.airTicketNumber = t)) = true) :
    createEntityRecord "airTicket_id" ed gen edb
      = .error ("Air ticket number \"" ++ t ++
          "\" already exists. Please use a different ticket number.") := by
  have hjs : jsOr ed.airTicketNumber (genTicketNumber gen.ticketTs gen.ticketRand)
      = t := by
    rw [ht]
    simp [jsOr, hne]
  unfold createEntityRecord
  simp only []
  rw [hjs, if_pos hdup]

/-- C4 counterexample: uniqueness of the business key is **not** enforced
for new sell and visa extension — inserting a second row of the same kind
with an invoice number that an existing row already carries succeeds (the
claim as stated is false for those kinds). -/
theorem C4_uniqueness_counterexample :
    (({ payments := [],
        entities := { visaExtension := [⟨1, "TRV", 100, "2026-01-01", some "VX-1", none⟩] } }
          : ProductDB).entities.visaExtension.any
        (fun r => r.invoiceNo = some "VX-1")) = true ∧
    (saveClientProductPayment
      { productPaymentId := none, clientId := 1, productName := "VISA_EXTENSION",
        invoiceNo := none, amount := none, paymentDate := none, remarks := none,
        entityData := some { type := some "TRV", amount := some 100,
                             invoiceNo := some "VX-1" } }
      ⟨"2026-10-11", 5, "abc"⟩
      { payments := [],
        entities := { visaExtension := [⟨1, "TRV", 100, "2026-01-01", some "VX-1", none⟩] } }).isOk
      = true ∧
    (({ payments := [],
        entities := { newSell := [⟨1, "Svc", none, 100, "2026-01-01", some "NS-1", none⟩] } }
          : ProductDB).entities.newSell.any
        (fun r => r.invoiceNo = some "NS-1")) = true ∧
    (saveClientProductPayment
      { productPaymentId := none, clientId := 1, productName := "OTHER_NEW_SELL",
        invoiceNo := none, amount := none, paymentDate := none, remarks := none,
        entityData := some { serviceName := some "Svc", amount := some 100,
                             invoiceNo := some "NS-1" } }
      ⟨"2026-10-11", 5, "abc"⟩
      { payments := [],
        entities := { newSell := [⟨1, "Svc", none, 100, "2026-01-01", some "NS-1", none⟩] } }).isOk
      = true := by
  refine ⟨rfl, rfl, rfl, rfl⟩

/-- C4 amended: of the three kinds, only the air ticket performs the
pre-insert business-key uniqueness check — a duplicate `airTicketNumber`
fails with a domain error naming the conflicting ticket number and nothing
is inserted; new-sell and visa-extension inserts perform no such check and a
duplicate invoice number is accepted. -/
theorem C4_uniqueness_amended :
    (∀ (data : SaveClientProductPaymentInput) (gen : EntityGen) (db : ProductDB)
        (ed : EntityData) (t : String),
      data.clientId ≠ 0 →
      data.productName = "AIR_TICKET" →
      data.productPaymentId = none →
      data.entityData = some ed →
      ed.airTicketNumber = some t → t ≠ "" →
      (db.entities.airTicket.any (fun r => r.airTicketNumber = t)) = true →
      saveClientProductPayment data gen db
        = .error ("Air ticket number \"" ++ t ++
            "\" already exists. Please use a different ticket number.")) ∧
    (saveClientProductPayment
      { productPaymentId := none, clientId := 1, productName := "VISA_EXTENSION",
        invoiceNo := none, amount := none, paymentDate := none, remarks := none,
        entityData := some { type := some "TRV", amount := some 100,
                             invoiceNo := some "VX-1" } }
      ⟨"2026-10-11", 5, "abc"⟩
      { payments := [],
        entities := { visaExtension := [⟨1, "TRV", 100, "2026-01-01", some "VX-1", none⟩] } }).isOk
      = true ∧
    (saveClientProductPayment
      { productPaymentId := none, clientId := 1, productName := "OTHER_NEW_SELL",
        invoiceNo := none, amount := none, paymentDate := none, remarks := none,
        entityData := some { serviceName := some "Svc", amount := some 100,
                             invoiceNo := some "NS-1" } }
      ⟨"2026-10-11", 5, "abc"⟩
      { payments := [],
        entities := { newSell := [⟨1, "Svc", none, 100, "2026-01-01", some "NS-1", none⟩] } }).isOk
      = true := by
  refine ⟨?_, rfl, rfl⟩
  intro data gen db ed t h1 hname hpid hed ht hne hdup
  unfold saveClientProductPayment
  rw [if_neg h1]
  rw [if_neg (by rw [hname]; simp)]
  rw [hname]
  have hm : productToEntityTypeMap "AIR_TICKET" = some "airTicket_id" := rfl
  rw [hm]
  simp only []
  rw [if_neg (by simp)]
  simp only []
  rw [hpid]
  simp only []
  unfold saveProductCreate
  rw [if_pos (by simp)]
  rw [hed]
  simp only []
  rw [createEntityRecord_airTicket_dup ed gen db.entities t ht hne hdup]

/-- Witness for C4's amended theorem: the air-ticket hypotheses are
satisfiable — a concrete duplicate ticket number is rejected naming it. -/
theorem C4_uniqueness_amended_witness :
    saveClientProductPayment
      { productPaymentId := none, clientId := 1, productName := "AIR_TICKET",
        invoiceNo := none, amount := none, paymentDate := none, remarks := none,
        entityData := some { airTicketNumber := some "TK-77", amount := some 300 } }
      ⟨"2026-10-11", 5, "abc"⟩
      { payments := [],
        entities := { airTicket := [⟨1, true, 250, "TK-77", "2026-01-01", none⟩] } }
      = .error ("Air ticket number \"" ++ "TK-77" ++
          "\" already exists. Please use a different ticket number.") :=
  C4_uniqueness_amended.1 _ ⟨"2026-10-11", 5, "abc"⟩ _ _ "TK-77"
    (by norm_num) rfl rfl rfl rfl (by simp) rfl

/-- The forex-fees constructor rejects any `side` outside {PI, TP} before
inserting. -/
theorem createEntityRecord_forexFees_badSide (ed : EntityData) (gen : EntityGen)
    (edb : EntityDB) (s : String) (hs : ed.side = some s)
    (h1 : s ≠ "PI") (h2 : s ≠ "TP") :
    createEntityRecord "forexFees_id" ed gen edb
      = .error "side is required and must be \x27PI\x27 or \x27TP\x27" := by
  unfold createEntityRecord
  simp only []
  rw [hs]
  simp only []
  have hc : (!(decide (s = "PI") || decide (s = "TP"))) = true := by
    simp [h1, h2]
  rw [if_pos hc]
  rfl

/-- C8: a FOREX_FEES product payment with `side` empty (or any value
outside {PI, TP}) is rejected before any satellite insert, while one with
`side = "PI"` succeeds and is returned by `getProductPaymentsByClientId`
with its entity's `side` equal to "PI". -/
theorem C8_forex_side_spec :
    (∀ (data : SaveClientProductPaymentInput) (gen : EntityGen) (db : ProductDB)
        (ed : EntityData) (s : String),
      data.clientId ≠ 0 →
      data.productName = "FOREX_FEES" →
      data.productPaymentId = none →
      data.entityData = some ed →
      ed.side = some s → s ≠ "PI" → s ≠ "TP" →
      saveClientProductPayment data gen db
        = .error "side is required and must be \x27PI\x27 or \x27TP\x27") ∧
    saveClientProductPayment
      { productPaymentId := none, clientId := 1, productName := "FOREX_FEES",
        invoiceNo := none, amount := none, paymentDate := none, remarks := none,
        entityData := some { side := some "PI", amount := some 500 } }
      ⟨"2026-10-11", 5, "abc"⟩ {}
      = .ok ("CREATED",
          { productPaymentId := 1, clientId := 1, productName := "FOREX_FEES",
            entityType := "forexFees_id", entityId := some 1, amount := none,
            paymentDate := none, invoiceNo := none, remarks := none },
          { payments :=
              [{ productPaymentId := 1, clientId := 1, productName := "FOREX_FEES",
                 entityType := "forexFees_id", entityId := some 1, amount := none,
                 paymentDate := none, invoiceNo := none, remarks := none }],
            entities := { forexFees := [⟨1, "PI", 500, none, none⟩] } }) ∧
    getProductPaymentsByClientId 1
      { payments :=
          [{ productPaymentId := 1, clientId := 1, productName := "FOREX_FEES",
             entityType := "forexFees_id", entityId := some 1, amount := none,
             paymentDate := none, invoiceNo := none, remarks := none }],
        entities := { forexFees := [⟨1, "PI", 500, none, none⟩] } }
      = [({ productPaymentId := 1, clientId := 1, productName := "FOREX_FEES",
            entityType := "forexFees_id", entityId := some 1, amount := none,
            paymentDate := none, invoiceNo := none, remarks := none },
          some (.forexFees ⟨1, "PI", 500, none, none⟩))] ∧
    (⟨1, "PI", 500, none, none⟩ : ForexFeesRow).side = "PI" := by
  refine ⟨?_, rfl, rfl, rfl⟩
  intro data gen db ed s h1 hname hpid hed hs hPI hTP
  unfold saveClientProductPayment
  rw [if_neg h1]
  rw [if_neg (by rw [hname]; simp)]
  rw [hname]
  have hm : productToEntityTypeMap "FOREX_FEES" = some "forexFees_id" := rfl
  rw [hm]
  simp only []
  rw [if_neg (by simp)]
  simp only []
  rw [hpid]
  simp only []
  unfold saveProductCreate
  rw [if_pos (by simp)]
  rw [hed]
  simp only []
  rw [createEntityRecord_forexFees_badSide ed gen db.entities s hs hPI hTP]

/-- Witness for C8: the rejection hypotheses are satisfiable — a concrete
FOREX_FEES submission with `side = ""` is rejected. -/
theorem C8_forex_side_spec_witness :
    saveClientProductPayment
      { productPaymentId := none, clientId := 1, productName := "FOREX_FEES",
        invoiceNo := none, amount := none, paymentDate := none, remarks := none,
        entityData := some { side := some "", amount := some 500 } }
      ⟨"2026-10-11", 5, "abc"⟩ {}
      = .error "side is required and must be \x27PI\x27 or \x27TP\x27" :=
  C8_forex_side_spec.1 _ ⟨"2026-10-11", 5, "abc"⟩ {} _ ""
    (by norm_num) rfl rfl rfl rfl (by simp) (by simp)
